import Mathlib

/-!
Verification of the construction-hub data-analytics core against its
natural-language specification.

The development shallowly embeds the three Python modules
`src/utils/data_validator.py`, `src/utils/data_transformer.py` and
`src/services/etl_service.py`:

* JSON payload values are modelled by the inductive type `Value`;
  Python numbers (int and float alike) are modelled as exact rationals,
  so float rounding noise is abstracted away (none of the verified
  properties is sensitive to it).
* Ambient effects of the code — `datetime.now()`, `datetime.utcnow()`
  and the process-seeded built-in string `hash` — are packaged into an
  explicit environment `Env` that is threaded through the functions.
* Fallible Python code (expressions that can raise) is modelled in the
  `Except String` monad; a `try/except` block becomes an explicit match
  on the `Except` result.
-/

/-- A Python/JSON value as it appears in a decoded payload: `None`,
booleans, numbers (ints and floats, modelled as `ℚ`), strings, lists
and string-keyed dicts (insertion-ordered association lists). -/
inductive Value where
  | vNull : Value
  | vBool : Bool → Value
  | vNum : ℚ → Value
  | vStr : String → Value
  | vList : List Value → Value
  | vDict : List (String × Value) → Value
deriving Repr

open Value

mutual

/-- Structural equality of values (Python `==` restricted to the
JSON fragment; the numeric cross-type quirks `1 == True` etc. are not
reached by any verified property). -/
def Value.beq : Value → Value → Bool
  | vNull, vNull => true
  | vBool a, vBool b => a == b
  | vNum a, vNum b => a == b
  | vStr a, vStr b => a == b
  | vList a, vList b => Value.beqL a b
  | vDict a, vDict b => Value.beqD a b
  | _, _ => false

def Value.beqL : List Value → List Value → Bool
  | [], [] => true
  | a :: as, b :: bs => Value.beq a b && Value.beqL as bs
  | _, _ => false

def Value.beqD : List (String × Value) → List (String × Value) → Bool
  | [], [] => true
  | (ka, a) :: as, (kb, b) :: bs => ka == kb && Value.beq a b && Value.beqD as bs
  | _, _ => false

end

instance : BEq Value := ⟨Value.beq⟩

mutual

theorem Value.beq_refl : ∀ a : Value, Value.beq a a = true
  | vNull => rfl
  | vBool a => by simp [Value.beq]
  | vNum a => by simp [Value.beq]
  | vStr a => by simp [Value.beq]
  | vList l => by simp [Value.beq, Value.beqL_refl l]
  | vDict d => by simp [Value.beq, Value.beqD_refl d]

theorem Value.beqL_refl : ∀ l : List Value, Value.beqL l l = true
  | [] => rfl
  | a :: as => by simp [Value.beqL, Value.beq_refl a, Value.beqL_refl as]

theorem Value.beqD_refl : ∀ d : List (String × Value), Value.beqD d d = true
  | [] => rfl
  | (k, a) :: as => by simp [Value.beqD, Value.beq_refl a, Value.beqD_refl as]

end

mutual

theorem Value.beq_sound : ∀ a b : Value, Value.beq a b = true → a = b
  | vNull, vNull, _ => rfl
  | vBool a, vBool b, h => by simpa [Value.beq] using h
  | vNum a, vNum b, h => by simpa [Value.beq] using h
  | vStr a, vStr b, h => by simpa [Value.beq] using h
  | vList a, vList b, h => by
    simp only [Value.beq] at h
    exact congrArg vList (Value.beqL_sound a b h)
  | vDict a, vDict b, h => by
    simp only [Value.beq] at h
    exact congrArg vDict (Value.beqD_sound a b h)
  | vNull, vBool _, h => by simp [Value.beq] at h
  | vNull, vNum _, h => by simp [Value.beq] at h
  | vNull, vStr _, h => by simp [Value.beq] at h
  | vNull, vList _, h => by simp [Value.beq] at h
  | vNull, vDict _, h => by simp [Value.beq] at h
  | vBool _, vNull, h => by simp [Value.beq] at h
  | vBool _, vNum _, h => by simp [Value.beq] at h
  | vBool _, vStr _, h => by simp [Value.beq] at h
  | vBool _, vList _, h => by simp [Value.beq] at h
  | vBool _, vDict _, h => by simp [Value.beq] at h
  | vNum _, vNull, h => by simp [Value.beq] at h
  | vNum _, vBool _, h => by simp [Value.beq] at h
  | vNum _, vStr _, h => by simp [Value.beq] at h
  | vNum _, vList _, h => by simp [Value.beq] at h
  | vNum _, vDict _, h => by simp [Value.beq] at h
  | vStr _, vNull, h => by simp [Value.beq] at h
  | vStr _, vBool _, h => by simp [Value.beq] at h
  | vStr _, vNum _, h => by simp [Value.beq] at h
  | vStr _, vList _, h => by simp [Value.beq] at h
  | vStr _, vDict _, h => by simp [Value.beq] at h
  | vList _, vNull, h => by simp [Value.beq] at h
  | vList _, vBool _, h => by simp [Value.beq] at h
  | vList _, vNum _, h => by simp [Value.beq] at h
  | vList _, vStr _, h => by simp [Value.beq] at h
  | vList _, vDict _, h => by simp [Value.beq] at h
  | vDict _, vNull, h => by simp [Value.beq] at h
  | vDict _, vBool _, h => by simp [Value.beq] at h
  | vDict _, vNum _, h => by simp [Value.beq] at h
  | vDict _, vStr _, h => by simp [Value.beq] at h
  | vDict _, vList _, h => by simp [Value.beq] at h

theorem Value.beqL_sound : ∀ a b : List Value, Value.beqL a b = true → a = b
  | [], [], _ => rfl
  | x :: xs, y :: ys, h => by
    simp only [Value.beqL, Bool.and_eq_true] at h
    exact congrArg₂ (· :: ·) (Value.beq_sound x y h.1) (Value.beqL_sound xs ys h.2)
  | [], _ :: _, h => by simp [Value.beqL] at h
  | _ :: _, [], h => by simp [Value.beqL] at h

theorem Value.beqD_sound :
    ∀ a b : List (String × Value), Value.beqD a b = true → a = b
  | [], [], _ => rfl
  | (kx, x) :: xs, (ky, y) :: ys, h => by
    simp only [Value.beqD, Bool.and_eq_true] at h
    obtain ⟨⟨hk, hv⟩, hrest⟩ := h
    have hk' : kx = ky := by simpa using hk
    exact congrArg₂ (· :: ·) (by rw [hk', Value.beq_sound x y hv])
      (Value.beqD_sound xs ys hrest)
  | [], _ :: _, h => by simp [Value.beqD] at h
  | _ :: _, [], h => by simp [Value.beqD] at h

end

instance : DecidableEq Value := fun a b =>
  if h : Value.beq a b = true then isTrue (Value.beq_sound a b h)
  else isFalse (fun he => h (he ▸ Value.beq_refl a))

/-- A dict body: insertion-ordered association list with unique keys. -/
abbrev Record := List (String × Value)

/-- First-match lookup, the reading semantics of a Python dict
(association lists built by `setK` keep keys unique). -/
def lookupK (r : Record) (k : String) : Option Value :=
  match r with
  | [] => none
  | (k', v) :: rest => if k' = k then some v else lookupK rest k

/-- Python dict assignment `r[k] = v`: overwrite in place if the key
exists, else append (insertion order preserved). -/
def setK (r : Record) (k : String) (v : Value) : Record :=
  match r with
  | [] => [(k, v)]
  | (k', v') :: rest => if k' = k then (k', v) :: rest else (k', v') :: setK rest k v

/-- Python truthiness: `None`, `False`, `0`, `''`, `[]`, `{}` are falsy. -/
def pyTruthy : Value → Bool
  | vNull => false
  | vBool b => b
  | vNum q => q ≠ 0
  | vStr s => s ≠ ""
  | vList l => !l.isEmpty
  | vDict d => !d.isEmpty

/-- Decimal representation of a rational. Integers print without a
decimal point exactly as Python ints do; non-integers print as
`num/den`, an abstraction of Python float repr (only determinism and
injectivity on the values actually reached are load-bearing). -/
def ratRepr (q : ℚ) : String :=
  if q.den = 1 then toString q.num else toString q.num ++ "/" ++ toString q.den

mutual
/-- Python `str(value)`. Containers get a simple deterministic
bracketed form standing in for Python repr. -/
def pyStr : Value → String
  | vNull => "None"
  | vBool true => "True"
  | vBool false => "False"
  | vNum q => ratRepr q
  | vStr s => s
  | vList l => "[" ++ pyStrList l ++ "]"
  | vDict d => "\x7b" ++ pyStrDict d ++ "\x7d"

def pyStrList : List Value → String
  | [] => ""
  | [v] => pyStr v
  | v :: rest => pyStr v ++ ", " ++ pyStrList rest

def pyStrDict : List (String × Value) → String
  | [] => ""
  | [(k, v)] => k ++ ": " ++ pyStr v
  | (k, v) :: rest => k ++ ": " ++ pyStr v ++ ", " ++ pyStrDict rest
end

/-- Substring test on character lists, for Python `needle in s`. -/
def charsContain (needle hay : List Char) : Bool :=
  match hay with
  | [] => needle.isEmpty
  | _ :: rest => needle.isPrefixOf hay || charsContain needle rest

/-- Python membership `needle in v` for a string needle: key test on
dicts, element test on lists, substring test on strings; a `TypeError`
on non-container values. -/
def pyIn (needle : String) (v : Value) : Except String Bool :=
  match v with
  | vDict d => .ok ((lookupK d needle).isSome)
  | vList l => .ok (l.contains (vStr needle))
  | vStr s => .ok (charsContain needle.toList s.toList)
  | _ => .error "TypeError: argument of type is not iterable"

/-- Python indexing `v[k]` with a string key: succeeds only on dicts
holding the key; raises (`TypeError`/`KeyError`) otherwise. -/
def pyIndex (v : Value) (k : String) : Except String Value :=
  match v with
  | vDict d =>
    match lookupK d k with
    | some w => .ok w
    | none => .error ("KeyError: " ++ k)
  | _ => .error "TypeError: indices must be integers"

/-- Parse the fractional part digits after a decimal point. -/
def parseFracDigits (cs : List Char) (acc : ℚ) (scale : ℚ) : Option (ℚ × List Char) :=
  match cs with
  | c :: rest =>
    if c.isDigit then
      parseFracDigits rest (acc + scale * ((c.toNat - '0'.toNat : Nat) : ℚ)) (scale / 10)
    else some (acc, cs)
  | [] => some (acc, [])

/-- Parse a run of decimal digits as a natural number. -/
def parseNatDigits (cs : List Char) (acc : Nat) (count : Nat) : Nat × Nat × List Char :=
  match cs with
  | c :: rest =>
    if c.isDigit then parseNatDigits rest (acc * 10 + (c.toNat - '0'.toNat)) (count + 1)
    else (acc, count, cs)
  | [] => (acc, count, [])

/-- Model of Python `float(s)` on a character list: optional sign,
decimal digits with an optional fractional part, optional exponent.
(The textual forms `inf`/`nan` and digit underscores are outside the
rational model and not reached by any verified property.) -/
def parseFloatChars (cs : List Char) : Option ℚ :=
  let (sign, cs1) :=
    match cs with
    | '-' :: rest => ((-1 : ℚ), rest)
    | '+' :: rest => ((1 : ℚ), rest)
    | _ => ((1 : ℚ), cs)
  let (ip, ipCount, cs2) := parseNatDigits cs1 0 0
  match cs2 with
  | '.' :: rest =>
    match parseFracDigits rest 0 (1 / 10) with
    | some (fp, cs3) =>
      -- at least one digit somewhere around the point
      let fpCount := rest.length - cs3.length
      if ipCount = 0 ∧ fpCount = 0 then none
      else
        match cs3 with
        | [] => some (sign * ((ip : ℚ) + fp))
        | 'e' :: es => parseExpPart (sign * ((ip : ℚ) + fp)) es
        | 'E' :: es => parseExpPart (sign * ((ip : ℚ) + fp)) es
        | _ => none
    | none => none
  | 'e' :: es => if ipCount = 0 then none else parseExpPart (sign * (ip : ℚ)) es
  | 'E' :: es => if ipCount = 0 then none else parseExpPart (sign * (ip : ℚ)) es
  | [] => if ipCount = 0 then none else some (sign * (ip : ℚ))
  | _ => none
where
  /-- Exponent suffix: optional sign then at least one digit. -/
  parseExpPart (mantissa : ℚ) (cs : List Char) : Option ℚ :=
    let (esign, cs1) :=
      match cs with
      | '-' :: rest => (true, rest)
      | '+' :: rest => (false, rest)
      | _ => (false, cs)
    let (e, eCount, cs2) := parseNatDigits cs1 0 0
    if eCount = 0 ∨ ¬ cs2.isEmpty then none
    else some (if esign then mantissa / 10 ^ e else mantissa * 10 ^ e)

/-- Python `float(value)`: numbers pass through, booleans become 0/1,
strings are parsed (surrounding whitespace stripped); `None`, lists and
dicts raise `TypeError` (modelled as `none`). -/
def pyFloat : Value → Option ℚ
  | vNum q => some q
  | vBool b => some (if b then 1 else 0)
  | vStr s => parseFloatChars s.trim.toList
  | _ => none

/-! ### Dates

`datetime.strptime` restricted to the six format strings the code
passes it. Each `%`-directive is modelled by the regex CPython's
`_strptime` compiles for it (`%Y` = exactly four digits, `%m` =
`1[0-2]|0[1-9]|[1-9]`, `%d` = `3[01]|[12]\d|0[1-9]|[1-9]`, `%H` =
`2[0-3]|[0-1]\d|\d`, `%M` = `[0-5]\d|\d`, `%S` = `6[0-1]|[0-5]\d|\d`,
`%f` = one to six digits, a literal space = one or more whitespace
characters), followed by the `datetime` constructor's validity checks
(year ≥ 1, day within the month, seconds ≤ 59). Only the date part is
retained: no caller of a format with a time component ever uses the
parsed time of day. -/

/-- A calendar date (the result of a successful strptime call). -/
structure Date where
  year : Nat
  month : Nat
  day : Nat
deriving Repr, DecidableEq

def isLeap (y : Nat) : Bool :=
  y % 4 == 0 && (y % 100 != 0 || y % 400 == 0)

def daysInMonth (y m : Nat) : Nat :=
  if m = 2 then (if isLeap y then 29 else 28)
  else if m = 4 ∨ m = 6 ∨ m = 9 ∨ m = 11 then 30
  else 31

/-- The `datetime` constructor's date validity check (month and day
lower/upper bounds beyond what the regexes already guarantee). -/
def mkValidDate (y m d : Nat) : Option Date :=
  if 1 ≤ y ∧ d ≤ daysInMonth y m then some ⟨y, m, d⟩ else none

def digitVal (c : Char) : Nat := c.toNat - '0'.toNat

/-- `%Y`: exactly four digits. -/
def parseYear4 : List Char → Option (Nat × List Char)
  | a :: b :: c :: d :: rest =>
    if a.isDigit ∧ b.isDigit ∧ c.isDigit ∧ d.isDigit then
      some (digitVal a * 1000 + digitVal b * 100 + digitVal c * 10 + digitVal d, rest)
    else none
  | _ => none

/-- `%m`: `1[0-2]|0[1-9]|[1-9]`, two-digit alternatives first. -/
def parseMonth2 : List Char → Option (Nat × List Char)
  | a :: b :: rest =>
    if (a = '1' ∧ '0' ≤ b ∧ b ≤ '2') ∨ (a = '0' ∧ '1' ≤ b ∧ b ≤ '9') then
      some (digitVal a * 10 + digitVal b, rest)
    else if '1' ≤ a ∧ a ≤ '9' then some (digitVal a, b :: rest)
    else none
  | [a] => if '1' ≤ a ∧ a ≤ '9' then some (digitVal a, []) else none
  | [] => none

/-- `%d`: `3[01]|[12]\d|0[1-9]|[1-9]`. -/
def parseDay2 : List Char → Option (Nat × List Char)
  | a :: b :: rest =>
    if (a = '3' ∧ (b = '0' ∨ b = '1')) ∨ ((a = '1' ∨ a = '2') ∧ b.isDigit) ∨
        (a = '0' ∧ '1' ≤ b ∧ b ≤ '9') then
      some (digitVal a * 10 + digitVal b, rest)
    else if '1' ≤ a ∧ a ≤ '9' then some (digitVal a, b :: rest)
    else none
  | [a] => if '1' ≤ a ∧ a ≤ '9' then some (digitVal a, []) else none
  | [] => none

/-- `%H`: `2[0-3]|[0-1]\d|\d`. -/
def parseHour2 : List Char → Option (Nat × List Char)
  | a :: b :: rest =>
    if (a = '2' ∧ '0' ≤ b ∧ b ≤ '3') ∨ ((a = '0' ∨ a = '1') ∧ b.isDigit) then
      some (digitVal a * 10 + digitVal b, rest)
    else if a.isDigit then some (digitVal a, b :: rest)
    else none
  | [a] => if a.isDigit then some (digitVal a, []) else none
  | [] => none

/-- `%M`: `[0-5]\d|\d`. -/
def parseMin2 : List Char → Option (Nat × List Char)
  | a :: b :: rest =>
    if '0' ≤ a ∧ a ≤ '5' ∧ b.isDigit then some (digitVal a * 10 + digitVal b, rest)
    else if a.isDigit then some (digitVal a, b :: rest)
    else none
  | [a] => if a.isDigit then some (digitVal a, []) else none
  | [] => none

/-- `%S`: `6[0-1]|[0-5]\d|\d`. -/
def parseSec2 : List Char → Option (Nat × List Char)
  | a :: b :: rest =>
    if (a = '6' ∧ (b = '0' ∨ b = '1')) ∨ ('0' ≤ a ∧ a ≤ '5' ∧ b.isDigit) then
      some (digitVal a * 10 + digitVal b, rest)
    else if a.isDigit then some (digitVal a, b :: rest)
    else none
  | [a] => if a.isDigit then some (digitVal a, []) else none
  | [] => none

def expectChar (c : Char) : List Char → Option (List Char)
  | x :: rest => if x = c then some rest else none
  | [] => none

/-- A literal space in a strptime format matches one or more
whitespace characters. -/
def expectWs : List Char → Option (List Char)
  | x :: rest => if x.isWhitespace then some (rest.dropWhile Char.isWhitespace) else none
  | [] => none

/-- `%f`: one to six digits. -/
def parseMicro : List Char → Option (List Char)
  | cs =>
    let digits := cs.takeWhile Char.isDigit
    if 1 ≤ digits.length ∧ digits.length ≤ 6 then some (cs.drop digits.length) else none

/-- The date part `%Y-%m-%d` of a format, not yet requiring the end of
the string. -/
def parseYmdPart (cs : List Char) : Option (Nat × Nat × Nat × List Char) :=
  match parseYear4 cs with
  | none => none
  | some (y, cs1) =>
    match expectChar '-' cs1 with
    | none => none
    | some cs2 =>
      match parseMonth2 cs2 with
      | none => none
      | some (m, cs3) =>
        match expectChar '-' cs3 with
        | none => none
        | some cs4 =>
          match parseDay2 cs4 with
          | none => none
          | some (d, cs5) => some (y, m, d, cs5)

/-- The time part `%H:%M:%S`, including the constructor's seconds
bound. -/
def parseHmsPart (cs : List Char) : Option (List Char) :=
  match parseHour2 cs with
  | none => none
  | some (_, cs1) =>
    match expectChar ':' cs1 with
    | none => none
    | some cs2 =>
      match parseMin2 cs2 with
      | none => none
      | some (_, cs3) =>
        match expectChar ':' cs3 with
        | none => none
        | some cs4 =>
          match parseSec2 cs4 with
          | none => none
          | some (s, cs5) => if s ≤ 59 then some cs5 else none

/-- `datetime.strptime(s, '%Y-%m-%d')`. -/
def parseYMD (s : String) : Option Date :=
  match parseYmdPart s.toList with
  | some (y, m, d, []) => mkValidDate y m d
  | _ => none

/-- `datetime.strptime(s, '%Y-%m-%d %H:%M:%S')`. -/
def parseYMDHMS (s : String) : Option Date :=
  match parseYmdPart s.toList with
  | some (y, m, d, rest) =>
    match expectWs rest with
    | some rest1 =>
      match parseHmsPart rest1 with
      | some [] => mkValidDate y m d
      | _ => none
    | none => none
  | none => none

/-- `datetime.strptime(s, '%Y-%m-%dT%H:%M:%S')`. -/
def parseYMDTHMS (s : String) : Option Date :=
  match parseYmdPart s.toList with
  | some (y, m, d, rest) =>
    match expectChar 'T' rest with
    | some rest1 =>
      match parseHmsPart rest1 with
      | some [] => mkValidDate y m d
      | _ => none
    | none => none
  | none => none

/-- `datetime.strptime(s, '%Y-%m-%dT%H:%M:%S.%f')`. -/
def parseYMDTHMSF (s : String) : Option Date :=
  match parseYmdPart s.toList with
  | some (y, m, d, rest) =>
    match expectChar 'T' rest with
    | some rest1 =>
      match parseHmsPart rest1 with
      | some rest2 =>
        match expectChar '.' rest2 with
        | some rest3 =>
          match parseMicro rest3 with
          | some [] => mkValidDate y m d
          | _ => none
        | none => none
      | _ => none
    | none => none
  | none => none

/-- `datetime.strptime(s, '%d/%m/%Y')`. -/
def parseDMY (s : String) : Option Date :=
  match parseDay2 s.toList with
  | none => none
  | some (d, cs1) =>
    match expectChar '/' cs1 with
    | none => none
    | some cs2 =>
      match parseMonth2 cs2 with
      | none => none
      | some (m, cs3) =>
        match expectChar '/' cs3 with
        | none => none
        | some cs4 =>
          match parseYear4 cs4 with
          | some (y, []) => mkValidDate y m d
          | _ => none

/-- `datetime.strptime(s, '%m/%d/%Y')`. -/
def parseMDY (s : String) : Option Date :=
  match parseMonth2 s.toList with
  | none => none
  | some (m, cs1) =>
    match expectChar '/' cs1 with
    | none => none
    | some cs2 =>
      match parseDay2 cs2 with
      | none => none
      | some (d, cs3) =>
        match expectChar '/' cs3 with
        | none => none
        | some cs4 =>
          match parseYear4 cs4 with
          | some (y, []) => mkValidDate y m d
          | _ => none

/-- Linear day number of a date (days since 0000-03-01, the civil
calendar algorithm); only differences and comparisons of day numbers
are ever used. -/
def rataDie (dt : Date) : Int :=
  let y' := if dt.month ≤ 2 then dt.year - 1 else dt.year
  let era := y' / 400
  let yoe := y' % 400
  let mp := (dt.month + 9) % 12
  let doy := (153 * mp + 2) / 5 + dt.day - 1
  let doe := yoe * 365 + yoe / 4 - yoe / 100 + doy
  ((era * 146097 + doe : Nat) : Int)

/-- Ambient effects of the Python code, made explicit: the wall clock
(`datetime.now()` split into the day number of its date and a flag for
a nonzero time of day, which is all the day arithmetic observes),
`datetime.utcnow().isoformat()` as an opaque timestamp string, and the
process-seeded built-in string `hash`. -/
structure Env where
  nowDay : Int
  nowFrac : Bool
  nowIso : String
  hashFn : String → Int

/-- `(d - now).days` for a parsed (midnight) datetime `d`: the
timedelta is `(rataDie d - nowDay)` days minus the time-of-day
fraction, and `.days` floors. -/
def daysFromNow (env : Env) (d : Date) : Int :=
  rataDie d - env.nowDay - (if env.nowFrac then 1 else 0)

/-- `(now - d).days` for a parsed (midnight) datetime `d`: the
fraction is nonnegative, so flooring discards it. -/
def daysSince (env : Env) (d : Date) : Int :=
  env.nowDay - rataDie d

/-- `d < datetime.now()` for a parsed (midnight) datetime `d`. -/
def isBeforeNow (env : Env) (d : Date) : Bool :=
  rataDie d < env.nowDay ∨ (rataDie d = env.nowDay ∧ env.nowFrac)

/-- `datetime.now() < d` for a parsed (midnight) datetime `d`. -/
def nowBefore (env : Env) (d : Date) : Bool :=
  env.nowDay < rataDie d

/-- `datetime.now() > d` for a parsed (midnight) datetime `d`. -/
def nowAfter (env : Env) (d : Date) : Bool :=
  rataDie d < env.nowDay ∨ (rataDie d = env.nowDay ∧ env.nowFrac)

/-! ### Validation engine (`src/utils/data_validator.py`) -/

/-- Generic association-list lookup (first match). -/
def assocLookup {β : Type} : List (String × β) → String → Option β
  | [], _ => none
  | (k', v) :: rest, k => if k' = k then some v else assocLookup rest k

/-- Python `record.get(k)`: `None` default on dicts, `AttributeError`
on anything else. -/
def pyGet (v : Value) (k : String) : Except String Value :=
  match v with
  | vDict d =>
    match lookupK d k with
    | some w => .ok w
    | none => .ok vNull
  | _ => .error "AttributeError: object has no attribute get"

/-- The per-source validation rule set (`self.validation_rules`). All
`field_ranges` entries in the table carry both a `min` and a `max`, so
the pair is stored directly. -/
structure ValidationRules where
  required_fields : List String
  field_types : List (String × String)
  field_ranges : List (String × ℚ × ℚ)
  field_patterns : List (String × String)

/-- The closed rule table of `DataValidator.__init__`. -/
def validationRules : List (String × ValidationRules) :=
  [("accounts-payable",
    { required_fields := ["id", "amount", "due_date", "supplier_id"]
      field_types := [("id", "string"), ("amount", "numeric"), ("due_date", "date"),
        ("supplier_id", "string"), ("status", "string")]
      field_ranges := [("amount", 0, 10000000)]
      field_patterns := [("status", "^(pending|approved|paid|cancelled)$")] }),
   ("accounts-receivable",
    { required_fields := ["id", "amount", "customer_id"]
      field_types := [("id", "string"), ("amount", "numeric"), ("customer_id", "string"),
        ("payment_date", "date"), ("status", "string")]
      field_ranges := [("amount", 0, 10000000)]
      field_patterns := [("status", "^(pending|partial|paid|overdue)$")] }),
   ("cash-flow",
    { required_fields := ["id", "date", "type"]
      field_types := [("id", "string"), ("date", "date"), ("type", "string"),
        ("amount", "numeric")]
      field_ranges := []
      field_patterns := [("type", "^(inflow|outflow)$")] }),
   ("project-management",
    { required_fields := ["id", "name", "start_date"]
      field_types := [("id", "string"), ("name", "string"), ("start_date", "date"),
        ("end_date", "date"), ("budget", "numeric"), ("actual_cost", "numeric")]
      field_ranges := [("budget", 0, 100000000), ("actual_cost", 0, 100000000)]
      field_patterns := [] })]

def validationRulesFor (service : String) : Option ValidationRules :=
  assocLookup validationRules service

/-- `re.match` for the three anchored literal alternations occurring in
the rule table (the table is closed, no other pattern is ever passed).
Python's `$` also matches just before a trailing newline. -/
def reMatch (pat s : String) : Bool :=
  let alts :=
    if pat = "^(pending|approved|paid|cancelled)$" then
      ["pending", "approved", "paid", "cancelled"]
    else if pat = "^(pending|partial|paid|overdue)$" then
      ["pending", "partial", "paid", "overdue"]
    else if pat = "^(inflow|outflow)$" then ["inflow", "outflow"]
    else []
  alts.any fun a => s = a || s = a ++ "\n"

/-- `DataValidator._validate_field_type`. The `string` check accepts
any non-null value whose `str()` is non-empty; `numeric` means
`float()`-parseable (bool is an int subclass); `date` tries the fixed
format list, first match wins; `boolean` accepts bool literals and the
four case-insensitive textual forms; unknown type names pass. -/
def validateFieldType (value : Value) (expected : String) : Bool :=
  if expected = "string" then
    match value with
    | vStr _ => true
    | vNull => false
    | v => pyStr v ≠ ""
  else if expected = "numeric" then
    match value with
    | vNum _ => true
    | vBool _ => true
    | vStr s => (parseFloatChars s.trim.toList).isSome
    | _ => false
  else if expected = "date" then
    match value with
    | vStr s =>
      (parseYMD s).isSome || (parseYMDHMS s).isSome || (parseYMDTHMS s).isSome ||
        (parseYMDTHMSF s).isSome || (parseDMY s).isSome || (parseMDY s).isSome
    | _ => false
  else if expected = "boolean" then
    match value with
    | vBool _ => true
    | v => ["true", "false", "1", "0"].contains (pyStr v).toLower
  else true

/-- Required-field pass of `_validate_record`: the field must be
present, non-null and not the empty string. Raises (propagates) when
the membership test or the indexing raises. -/
def requiredFieldErrors (record : Value) (fields : List String) (i : Nat) :
    Except String (List String) :=
  match fields with
  | [] => .ok []
  | f :: rest => do
    let present ← pyIn f record
    let bad ←
      if present then do
        let v ← pyIndex record f
        pure (decide (v = vNull ∨ v = vStr ""))
      else pure true
    let tail ← requiredFieldErrors record rest i
    pure ((if bad then
      ["Record " ++ toString i ++ ": Missing required field \"" ++ f ++ "\""] else []) ++ tail)

/-- Type pass of `_validate_record`: checked only for present,
non-null fields. -/
def typeCheckErrors (record : Value) (types : List (String × String)) (i : Nat) :
    Except String (List String) :=
  match types with
  | [] => .ok []
  | (f, ty) :: rest => do
    let present ← pyIn f record
    let here ←
      if present then do
        let v ← pyIndex record f
        pure (if v ≠ vNull ∧ ¬ validateFieldType v ty then
          ["Record " ++ toString i ++ ": Field \"" ++ f ++ "\" has invalid type. Expected " ++ ty]
          else [])
      else pure ([] : List String)
    let tail ← typeCheckErrors record rest i
    pure (here ++ tail)

/-- Range pass of `_validate_record`: the value is converted with
`float()`; a conversion failure is itself an error. -/
def rangeCheckErrors (record : Value) (ranges : List (String × ℚ × ℚ)) (i : Nat) :
    Except String (List String) :=
  match ranges with
  | [] => .ok []
  | (f, lo, hi) :: rest => do
    let present ← pyIn f record
    let here ←
      if present then do
        let v ← pyIndex record f
        if v = vNull then pure ([] : List String)
        else
          match pyFloat v with
          | some x =>
            let below : List String :=
              if x < lo then
                ["Record " ++ toString i ++ ": Field \"" ++ f ++ "\" value " ++ ratRepr x ++
                  " is below minimum " ++ ratRepr lo]
              else []
            let above : List String :=
              if x > hi then
                ["Record " ++ toString i ++ ": Field \"" ++ f ++ "\" value " ++ ratRepr x ++
                  " exceeds maximum " ++ ratRepr hi]
              else []
            pure (below ++ above)
          | none =>
            pure ["Record " ++ toString i ++ ": Field \"" ++ f ++
              "\" is not numeric for range validation"]
      else pure ([] : List String)
    let tail ← rangeCheckErrors record rest i
    pure (here ++ tail)

/-- Pattern pass of `_validate_record`: the value is string-cast and
matched; a mismatch appends an error (not a warning). -/
def patternCheckErrors (record : Value) (pats : List (String × String)) (i : Nat) :
    Except String (List String) :=
  match pats with
  | [] => .ok []
  | (f, pat) :: rest => do
    let present ← pyIn f record
    let here ←
      if present then do
        let v ← pyIndex record f
        pure (if v ≠ vNull ∧ ¬ reMatch pat (pyStr v) then
          ["Record " ++ toString i ++ ": Field \"" ++ f ++ "\" does not match required pattern"]
          else [])
      else pure ([] : List String)
    let tail ← patternCheckErrors record rest i
    pure (here ++ tail)

/-- Body of `_validate_business_logic` before its catch-all handler.
`strptime` on a non-string raises `TypeError`, which the local
`except ValueError` does not catch; `float()` failures are caught
locally and silently passed. In every branch nothing has been
accumulated yet at the only raise points, so the catch-all in
`validateBusinessLogic` sees empty partial results. -/
def businessCore (env : Env) (service : String) (record : Value) (i : Nat) :
    Except String (List String × List String) :=
  if service = "accounts-payable" then do
    let stat ← pyGet record "status"
    let hasDue ← pyIn "due_date" record
    let w1 ←
      if stat = vStr "pending" ∧ hasDue then do
        let dv ← pyIndex record "due_date"
        match dv with
        | vStr s =>
          match parseYMD s with
          | some d => pure (if isBeforeNow env d then
              ["Record " ++ toString i ++ ": Due date is in the past for pending payment"]
              else [])
          | none => pure ([] : List String)
        | _ => .error "TypeError: strptime argument must be str"
      else pure ([] : List String)
    let hasAmt ← pyIn "amount" record
    let e1 :=
      if hasAmt then
        match pyIndex record "amount" with
        | .ok av =>
          match pyFloat av with
          | some a =>
            if a ≤ 0 then ["Record " ++ toString i ++ ": Payment amount must be positive"]
            else []
          | none => []
        | .error _ => []
      else []
    pure (e1, w1)
  else if service = "project-management" then do
    let hasS ← pyIn "start_date" record
    let hasE ← pyIn "end_date" record
    let e1 ←
      if hasS ∧ hasE then do
        let sv ← pyIndex record "start_date"
        match sv with
        | vStr ss =>
          match parseYMD ss with
          | none => pure ([] : List String)
          | some sd => do
            let ev ← pyIndex record "end_date"
            match ev with
            | vStr es =>
              match parseYMD es with
              | none => pure ([] : List String)
              | some ed => pure (if rataDie ed ≤ rataDie sd then
                  ["Record " ++ toString i ++ ": End date must be after start date"]
                  else [])
            | _ => .error "TypeError: strptime argument must be str"
        | _ => .error "TypeError: strptime argument must be str"
      else pure ([] : List String)
    let hasB ← pyIn "budget" record
    let hasA ← pyIn "actual_cost" record
    let w1 :=
      if hasB ∧ hasA then
        match pyIndex record "budget", pyIndex record "actual_cost" with
        | .ok bv, .ok av =>
          match pyFloat bv, pyFloat av with
          | some b, some a =>
            if a > b * (3 / 2) then
              ["Record " ++ toString i ++ ": Actual cost significantly exceeds budget"]
            else []
          | _, _ => []
        | _, _ => []
      else []
    pure (e1, w1)
  else if service = "cash-flow" then do
    let hasAmt ← pyIn "amount" record
    let w1 :=
      if hasAmt then
        match pyIndex record "amount" with
        | .ok av =>
          match pyFloat av with
          | some a =>
            if |a| > 1000000 then
              ["Record " ++ toString i ++ ": Unusually large cash flow amount"]
            else []
          | none => []
        | .error _ => []
      else []
    pure (([] : List String), w1)
  else pure ([], [])

/-- `DataValidator._validate_business_logic`: the catch-all handler
turns any escaped exception into a warning. -/
def validateBusinessLogic (env : Env) (service : String) (record : Value) (i : Nat) :
    List String × List String :=
  match businessCore env service record i with
  | .ok r => r
  | .error e =>
    ([], ["Record " ++ toString i ++ ": Error in business logic validation: " ++ e])

/-- Outcome of validating one record. -/
structure RecordVerdict where
  is_valid : Bool
  errors : List String
  warnings : List String
deriving Repr, DecidableEq

/-- `DataValidator._validate_record`. The source flips `is_valid` to
false at every error append and never back, so the final flag equals
"no error was accumulated". -/
def validateRecord (env : Env) (service : String) (record : Value) (i : Nat) :
    Except String RecordVerdict :=
  match validationRulesFor service with
  | none => .ok ⟨true, [], ["No validation rules defined for service: " ++ service]⟩
  | some rules => do
    let e1 ← requiredFieldErrors record rules.required_fields i
    let e2 ← typeCheckErrors record rules.field_types i
    let e3 ← rangeCheckErrors record rules.field_ranges i
    let e4 ← patternCheckErrors record rules.field_patterns i
    let (be, bw) := validateBusinessLogic env service record i
    let errs := e1 ++ e2 ++ e3 ++ e4 ++ be
    .ok ⟨errs.isEmpty, errs, bw⟩

/-- The whole-payload validation verdict. -/
structure Verdict where
  is_valid : Bool
  errors : List String
  warnings : List String
  records_validated : Nat
  records_failed : Nat
deriving Repr, DecidableEq

/-- Payload-shape normalization shared by validation and
transformation: a `data`-wrapped dict unwraps (a non-list wrapped value
becomes a singleton), a bare dict becomes a singleton, a list stands;
anything else is a structural error (`none`). -/
def extractRecordsV (data : Value) : Option (List Value) :=
  match data with
  | vDict d =>
    match lookupK d "data" with
    | some (vList l) => some l
    | some v => some [v]
    | none => some [data]
  | vList l => some l
  | _ => none

/-- The record loop of `validate_microservice_data`: counts every
record as validated, counts failures, accumulates the errors of failed
records and all warnings. An exception from a record propagates. -/
def validateLoop (env : Env) (service : String) :
    List Value → Nat → Verdict → Except String Verdict
  | [], _, acc => .ok acc
  | r :: rest, i, acc => do
    let rv ← validateRecord env service r i
    validateLoop env service rest (i + 1)
      { acc with
        records_validated := acc.records_validated + 1
        records_failed := acc.records_failed + (if rv.is_valid then 0 else 1)
        errors := acc.errors ++ (if rv.is_valid then [] else rv.errors)
        warnings := acc.warnings ++ rv.warnings }

/-- `DataValidator.validate_microservice_data`: falsy payloads are
rejected outright ('No data received'), non-container payloads are a
format error, otherwise every record is validated and the verdict is
invalid only when more than 10% of the records failed; the catch-all
handler converts an escaped exception into an error verdict with zero
counters. The `endpoint` argument is accepted and unused, as in the
source. -/
def validate_microservice_data (env : Env) (service endpoint : String) (data : Value) :
    Verdict :=
  let base : Verdict := ⟨true, [], [], 0, 0⟩
  if ¬ pyTruthy data then { base with is_valid := false, errors := ["No data received"] }
  else
    match extractRecordsV data with
    | none => { base with is_valid := false, errors := ["Invalid data format"] }
    | some records =>
      match validateLoop env service records 0 base with
      | .ok acc =>
        if 0 < acc.records_failed ∧
            (1 : ℚ) / 10 < (acc.records_failed : ℚ) / (acc.records_validated : ℚ) then
          { acc with is_valid := false }
        else acc
      | .error e => ⟨false, ["Validation error: " ++ e], [], 0, 0⟩

/-! ### Transformation engine (`src/utils/data_transformer.py`)

The calculation helpers all end in `except Exception: return None`, so
any raise inside them (including `TypeError` from `strptime` or
`.lower()` on a non-string) yields `None` for that field. They receive
the original record (a dict — non-dict records are dropped by
`_transform_record`, see below) and ignore their `service_name`
argument. `aggregate_data` (pandas-based) is outside the verified
surface. -/

/-- Insertion into a key-sorted association list. -/
def insertSorted (p : String × Value) : List (String × Value) → List (String × Value)
  | [] => [p]
  | q :: rest => if p.1 ≤ q.1 then p :: q :: rest else q :: insertSorted p rest

/-- Sort a dict body by key (Python `sorted` on code-point order; dict
keys are unique so stability is moot). -/
def sortByKey (l : List (String × Value)) : List (String × Value) :=
  l.foldr insertSorted []

def hexDigit (n : Nat) : Char :=
  if n < 10 then Char.ofNat ('0'.toNat + n) else Char.ofNat ('a'.toNat + (n - 10))

def hex4 (n : Nat) : String :=
  String.mk [hexDigit (n / 4096 % 16), hexDigit (n / 256 % 16), hexDigit (n / 16 % 16),
    hexDigit (n % 16)]

/-- `json.dumps` string escaping with the default `ensure_ascii=True`:
quote, backslash and the common control escapes, everything else
outside printable ASCII as `\uXXXX`. (The `\b`/`\f` shorthands and
surrogate pairs for astral code points are abstracted into the same
`\u` form; only determinism of the serialization is load-bearing.) -/
def jsonEscape (s : String) : String :=
  s.toList.foldl (fun acc c =>
    acc ++
      (if c = '"' then "\\\""
       else if c = '\\' then "\\\\"
       else if c = '\n' then "\\n"
       else if c = '\t' then "\\t"
       else if c = '\r' then "\\r"
       else if c.toNat < 32 ∨ 126 < c.toNat then "\\u" ++ hex4 (c.toNat % 65536)
       else String.singleton c)) ""

/-- `json.dumps(·, sort_keys=True)` with the default separators.
Recursion is by fuel for termination (dict bodies are sorted before
descending); `jsonDumps` supplies fuel exceeding the value's depth, so
the zero-fuel branch is never reached. -/
def jsonDumpsF : Nat → Value → String
  | 0, _ => ""
  | fuel + 1, v =>
    match v with
    | vNull => "null"
    | vBool true => "true"
    | vBool false => "false"
    | vNum q => ratRepr q
    | vStr s => "\"" ++ jsonEscape s ++ "\""
    | vList l => "[" ++ String.intercalate ", " (l.map (jsonDumpsF fuel)) ++ "]"
    | vDict d =>
      "\x7b" ++
        String.intercalate ", "
          ((sortByKey d).map fun p =>
            "\"" ++ jsonEscape p.1 ++ "\": " ++ jsonDumpsF fuel p.2) ++
        "\x7d"

mutual

/-- Nesting depth of a value, to size the serializer's fuel. -/
def Value.depth : Value → Nat
  | vList l => Value.depthL l + 1
  | vDict d => Value.depthD d + 1
  | _ => 1

def Value.depthL : List Value → Nat
  | [] => 0
  | v :: rest => max (Value.depth v) (Value.depthL rest)

def Value.depthD : List (String × Value) → Nat
  | [] => 0
  | (_, v) :: rest => max (Value.depth v) (Value.depthD rest)

end

def jsonDumps (v : Value) : String := jsonDumpsF (Value.depth v) v

/-- `DataTransformer._calculate_record_hash`: the canonical key-sorted
JSON serialization of the record fed to the process-seeded built-in
`hash`, string-cast. (`default=str` only fires for values outside the
JSON fragment, which the model does not contain.) -/
def calcRecordHash (env : Env) (d : Record) : String :=
  toString (env.hashFn (jsonDumps (vDict d)))

/-- The calculation functions bound in `transformation_rules`. -/
inductive CalcField where
  | days_until_due | amount_cad | risk_score
  | days_overdue | collection_probability
  | cumulative_balance | monthly_total | trend_indicator
  | budget_variance | project_duration | completion_percentage | cost_per_day
deriving Repr, DecidableEq

/-- The per-source transformation rule set. -/
structure TransformRules where
  field_mappings : List (String × String)
  calculated_fields : List (String × CalcField)
  aggregations : List (String × String)

/-- The closed rule table of `DataTransformer.__init__`. -/
def transformationRules : List (String × TransformRules) :=
  [("accounts-payable",
    { field_mappings := [("id", "payable_id"), ("amount", "payable_amount"),
        ("due_date", "payable_due_date"), ("supplier_id", "supplier_id"),
        ("status", "payable_status")]
      calculated_fields := [("days_until_due", .days_until_due), ("amount_cad", .amount_cad),
        ("risk_score", .risk_score)]
      aggregations := [("total_amount", "sum"), ("avg_amount", "mean"), ("count", "count")] }),
   ("accounts-receivable",
    { field_mappings := [("id", "receivable_id"), ("amount", "receivable_amount"),
        ("customer_id", "customer_id"), ("payment_date", "expected_payment_date"),
        ("status", "receivable_status")]
      calculated_fields := [("days_overdue", .days_overdue), ("amount_cad", .amount_cad),
        ("collection_probability", .collection_probability)]
      aggregations := [] }),
   ("cash-flow",
    { field_mappings := [("id", "cashflow_id"), ("date", "transaction_date"),
        ("type", "flow_type"), ("amount", "flow_amount")]
      calculated_fields := [("cumulative_balance", .cumulative_balance),
        ("monthly_total", .monthly_total), ("trend_indicator", .trend_indicator)]
      aggregations := [] }),
   ("project-management",
    { field_mappings := [("id", "project_id"), ("name", "project_name"),
        ("start_date", "project_start_date"), ("end_date", "project_end_date"),
        ("budget", "project_budget"), ("actual_cost", "project_actual_cost")]
      calculated_fields := [("budget_variance", .budget_variance),
        ("project_duration", .project_duration),
        ("completion_percentage", .completion_percentage), ("cost_per_day", .cost_per_day)]
      aggregations := [] })]

def transformationRulesFor (service : String) : Option TransformRules :=
  assocLookup transformationRules service

/-- Python `round(x, 2)`: round half to even at two decimals (the
binary-float rounding noise is abstracted by the rational model). -/
def pyRound2 (q : ℚ) : ℚ :=
  let x := q * 100
  let n : ℤ := ⌊x⌋
  let frac := x - (n : ℚ)
  let r : ℤ :=
    if frac < 1 / 2 then n
    else if 1 / 2 < frac then n + 1
    else if n % 2 = 0 then n else n + 1
  (r : ℚ) / 100

/-- `_calculate_days_until_due`: `(due_date − now).days` for a truthy,
`%Y-%m-%d`-parseable string `due_date`; `None` otherwise. -/
def calculate_days_until_due (env : Env) (d : Record) : Option Int :=
  match lookupK d "due_date" with
  | some v =>
    if pyTruthy v then
      match v with
      | vStr s =>
        match parseYMD s with
        | some dt => some (daysFromNow env dt)
        | none => none
      | _ => none
    else none
  | none => none

/-- `_calculate_days_overdue`: `(now − payment_date).days` when the
payment date is in the past, else 0; `None` when absent, falsy,
non-string or unparseable. -/
def calculate_days_overdue (env : Env) (d : Record) : Option Int :=
  match lookupK d "payment_date" with
  | some v =>
    if pyTruthy v then
      match v with
      | vStr s =>
        match parseYMD s with
        | some pd => if isBeforeNow env pd then some (daysSince env pd) else some 0
        | none => none
      | _ => none
    else none
  | none => none

/-- `_convert_to_cad`: `float(amount)` for a present non-null amount;
`None` otherwise (including conversion failure). -/
def convert_to_cad (d : Record) : Option ℚ :=
  match lookupK d "amount" with
  | some v => if v = vNull then none else pyFloat v
  | none => none

/-- The 'Amount factor' block of `_calculate_payable_risk_score`:
additive tier for a present, truthy amount; `none` when `float()`
raises (the whole calculation returns `None`). -/
def riskAmountFactor (d : Record) : Option ℚ :=
  match lookupK d "amount" with
  | some v =>
    if pyTruthy v then
      match pyFloat v with
      | some a =>
        some (if a > 100000 then (3 : ℚ) / 10 else if a > 50000 then 2 / 10
          else if a > 10000 then 1 / 10 else 0)
      | none => none
    else some 0
  | none => some 0

/-- The 'Due date factor' block: an unparseable due-date string is a
locally caught `ValueError` (factor 0); a truthy non-string raises
`TypeError` past the local handler (`none`). -/
def riskDueDateFactor (env : Env) (d : Record) : Option ℚ :=
  match lookupK d "due_date" with
  | some v =>
    if pyTruthy v then
      match v with
      | vStr s =>
        match parseYMD s with
        | some dt =>
          let du := daysFromNow env dt
          some (if du < 0 then (4 : ℚ) / 10 else if du < 7 then 2 / 10
            else if du < 30 then 1 / 10 else 0)
        | none => some 0
      | _ => none
    else some 0
  | none => some 0

/-- The 'Status factor' block: `.lower()` on a present non-string
status raises (`none`). -/
def riskStatusFactor (d : Record) : Option ℚ :=
  match lookupK d "status" with
  | some (vStr s) =>
    let st := s.toLower
    some (if st = "overdue" then (3 : ℚ) / 10 else if st = "pending" then 1 / 10 else 0)
  | some _ => none
  | none => some 0

/-- `_calculate_payable_risk_score`: the three factor blocks in source
order, summed and capped at 1.0; a raise in any block yields `None`
for the whole score. -/
def calculate_payable_risk_score (env : Env) (d : Record) : Option ℚ := do
  let f1 ← riskAmountFactor d
  let f2 ← riskDueDateFactor env d
  let f3 ← riskStatusFactor d
  pure (min (f1 + f2 + f3) 1)

/-- The 'Days overdue factor' block of
`_calculate_collection_probability`: multiplicative discount by
overdue age; an unparseable payment-date string is a locally caught
`ValueError` (no discount). -/
def collectionOverdueFactor (env : Env) (d : Record) : Option ℚ :=
  match lookupK d "payment_date" with
  | some v =>
    if pyTruthy v then
      match v with
      | vStr s =>
        match parseYMD s with
        | some pd =>
          let dov := daysSince env pd
          some (if dov > 90 then (3 : ℚ) / 10 else if dov > 60 then 5 / 10
            else if dov > 30 then 7 / 10 else if dov > 0 then 9 / 10 else 1)
        | none => some 1
      | _ => none
    else some 1
  | none => some 1

/-- The 'Amount factor' block: the source tests `amount > 100000`
before `elif amount > 500000`, so the 0.8 branch is unreachable; it is
carried verbatim. -/
def collectionAmountFactor (d : Record) : Option ℚ :=
  match lookupK d "amount" with
  | some v =>
    if pyTruthy v then
      match pyFloat v with
      | some a =>
        some (if a > 100000 then (9 : ℚ) / 10 else if a > 500000 then 8 / 10 else 1)
      | none => none
    else some 1
  | none => some 1

/-- The 'Status factor' block: `paid` overrides the accumulated
probability `p` back to 1.0, `overdue`/`partial` discount it. -/
def collectionStatusAdjust (d : Record) (p : ℚ) : Option ℚ :=
  match lookupK d "status" with
  | some (vStr s) =>
    let st := s.toLower
    some (if st = "paid" then (1 : ℚ) else if st = "overdue" then p * (6 / 10)
      else if st = "partial" then p * (8 / 10) else p)
  | some _ => none
  | none => some p

/-- `_calculate_collection_probability`: overdue discount, then amount
discount, then the status override, floored at 0.0. -/
def calculate_collection_probability (env : Env) (d : Record) : Option ℚ := do
  let p1 ← collectionOverdueFactor env d
  let p2 ← collectionAmountFactor d
  let p := p1 * p2
  let p3 ← collectionStatusAdjust d p
  pure (max p3 0)

/-- `_calculate_cumulative_balance` (placeholder in the source): the
current amount when present and truthy. -/
def calculate_cumulative_balance (d : Record) : Option ℚ :=
  match lookupK d "amount" with
  | some v => if pyTruthy v then pyFloat v else none
  | none => none

/-- `_calculate_monthly_total` (placeholder in the source): same body
as the cumulative balance. -/
def calculate_monthly_total (d : Record) : Option ℚ :=
  match lookupK d "amount" with
  | some v => if pyTruthy v then pyFloat v else none
  | none => none

/-- `_calculate_trend_indicator`. -/
def calculate_trend_indicator (d : Record) : Option String :=
  match lookupK d "type", lookupK d "amount" with
  | some tv, some av =>
    match tv with
    | vStr ts =>
      match pyFloat av with
      | some a =>
        let ft := ts.toLower
        some (if ft = "inflow" ∧ a > 0 then "positive"
          else if ft = "outflow" ∧ a > 0 then "negative" else "neutral")
      | none => none
    | _ => none
  | _, _ => none

/-- `_calculate_budget_variance`: `((actual − budget)/budget) × 100`
rounded to two decimals, `None` when either field is absent, either
conversion fails, or the budget is not positive. -/
def calculate_budget_variance (d : Record) : Option ℚ :=
  match lookupK d "budget", lookupK d "actual_cost" with
  | some bv, some av =>
    match pyFloat bv with
    | some b =>
      match pyFloat av with
      | some a => if b > 0 then some (pyRound2 ((a - b) / b * 100)) else none
      | none => none
    | none => none
  | _, _ => none

/-- `_calculate_project_duration`: `(end − start).days` clamped below
at 0. -/
def calculate_project_duration (d : Record) : Option Int :=
  match lookupK d "start_date", lookupK d "end_date" with
  | some (vStr ss), some (vStr es) =>
    match parseYMD ss with
    | some sd =>
      match parseYMD es with
      | some ed => some (max (rataDie ed - rataDie sd) 0)
      | none => none
    | none => none
  | some _, some _ => none
  | _, _ => none

/-- `_calculate_completion_percentage`: 0 before the start, 100 after
the end, else linear interpolation capped at 100 and rounded; `None`
when the span is not positive. -/
def calculate_completion_percentage (env : Env) (d : Record) : Option ℚ :=
  match lookupK d "start_date", lookupK d "end_date" with
  | some (vStr ss), some (vStr es) =>
    match parseYMD ss with
    | some sd =>
      match parseYMD es with
      | some ed =>
        if nowBefore env sd then some 0
        else if nowAfter env ed then some 100
        else
          let total := rataDie ed - rataDie sd
          let elapsed := daysSince env sd
          if total > 0 then
            some (pyRound2 (min ((elapsed : ℚ) / (total : ℚ) * 100) 100))
          else none
      | none => none
    | none => none
  | some _, some _ => none
  | _, _ => none

/-- `_calculate_cost_per_day`: actual cost over elapsed days, `None`
when nothing has elapsed. -/
def calculate_cost_per_day (env : Env) (d : Record) : Option ℚ :=
  match lookupK d "actual_cost", lookupK d "start_date" with
  | some av, some (vStr ss) =>
    match pyFloat av with
    | some a =>
      match parseYMD ss with
      | some sd =>
        let de := daysSince env sd
        if de > 0 then some (pyRound2 (a / (de : ℚ))) else none
      | none => none
    | none => none
  | some _, some _ => none
  | _, _ => none

def optIntVal : Option Int → Value
  | some n => vNum (n : ℚ)
  | none => vNull

def optRatVal : Option ℚ → Value
  | some q => vNum q
  | none => vNull

def optStrVal : Option String → Value
  | some s => vStr s
  | none => vNull

/-- Dispatch a bound calculation function (`None` becomes an explicit
null field value, exactly as in `_transform_record`). -/
def runCalc (env : Env) (cf : CalcField) (d : Record) : Value :=
  match cf with
  | .days_until_due => optIntVal (calculate_days_until_due env d)
  | .amount_cad => optRatVal (convert_to_cad d)
  | .risk_score => optRatVal (calculate_payable_risk_score env d)
  | .days_overdue => optIntVal (calculate_days_overdue env d)
  | .collection_probability => optRatVal (calculate_collection_probability env d)
  | .cumulative_balance => optRatVal (calculate_cumulative_balance d)
  | .monthly_total => optRatVal (calculate_monthly_total d)
  | .trend_indicator => optStrVal (calculate_trend_indicator d)
  | .budget_variance => optRatVal (calculate_budget_variance d)
  | .project_duration => optIntVal (calculate_project_duration d)
  | .completion_percentage => optRatVal (calculate_completion_percentage env d)
  | .cost_per_day => optRatVal (calculate_cost_per_day env d)

/-- Body of `_transform_record` for a dict record, in source order:
field mappings (absent originals become explicit nulls), carry-through
of unmapped original fields, calculated fields, then the three system
fields. Later assignments overwrite earlier ones, as in a dict. -/
def transformRecordD (env : Env) (rules : TransformRules) (service : String) (d : Record) :
    Record :=
  let mapped := rules.field_mappings.foldl
    (fun acc (p : String × String) =>
      setK acc p.2 (match lookupK d p.1 with | some v => v | none => vNull)) []
  let carried := d.foldl
    (fun acc (p : String × Value) =>
      if (rules.field_mappings.map Prod.fst).contains p.1 then acc else setK acc p.1 p.2)
    mapped
  let calced := rules.calculated_fields.foldl
    (fun acc (p : String × CalcField) => setK acc p.1 (runCalc env p.2 d)) carried
  setK (setK (setK calced "_source_service" (vStr service))
    "_transformed_at" (vStr env.nowIso)) "_record_hash" (vStr (calcRecordHash env d))

/-- `DataTransformer._transform_record`: a non-dict record raises
inside the try (at the `.items()` iteration or the mapping indexing)
and the catch-all returns `None`; a dict record never raises. -/
def transform_record (env : Env) (rules : TransformRules) (service : String)
    (record : Value) : Option Record :=
  match record with
  | vDict d => some (transformRecordD env rules service d)
  | _ => none

/-- `DataTransformer.transform_microservice_data`: falsy or
non-container payloads yield `[]`; a source without a rule set returns
the normalized records untouched; otherwise each record is transformed
and `None` results are dropped (`if transformed_record:` — the built
dict always carries the system fields, hence is never empty/falsy). -/
def transform_microservice_data (env : Env) (service endpoint : String) (data : Value) :
    List Value :=
  if ¬ pyTruthy data then []
  else
    match extractRecordsV data with
    | none => []
    | some records =>
      match transformationRulesFor service with
      | none => records
      | some rules =>
        records.filterMap fun r => (transform_record env rules service r).map vDict

/-! ### Job orchestrator (`src/services/etl_service.py`)

`execute_etl_job` spawns a background thread and immediately returns
`{'status': 'started', 'job_id': job_id}`; everything else — the job
lookup, the transition to `running`, extraction, and the terminal
write — happens inside the thread. The embedding splits this into the
synchronous part `execute_etl_job` (which touches no state) and the
spawned task `runJob` (a store transformer). The database is modelled
as a map from job id to `ETLJob` (each job embedding its
`DataSource`, the `job.data_source` relation); the analytics-metric
warehouse writes of `_store_in_warehouse` are not modelled — its
helper `_create_analytics_metrics` catches every exception and rolls
back, so it never raises into the job flow. HTTP fetches are an oracle
from request URL to outcome. -/

/-- Outcome of `requests.get`: a transport error
(`requests.RequestException`, caught per endpoint) or a response whose
body is the result of `response.json()` (an `Except`, since a
non-JSON body raises `ValueError`, which the per-endpoint handler does
not catch). -/
inductive FetchOutcome where
  | transportError : String → FetchOutcome
  | response : Nat → Except String Value → FetchOutcome

/-- A configured data source. `connection` is the result of
`json.loads(source.connection_string)`; a parse failure is the
`.error` case (the exception escapes the extraction routine). -/
structure DataSource where
  type : String
  connection : Except String Value
  last_sync : Option String
deriving Repr

/-- An ETL job row (with its source, via the `data_source`
relation). -/
structure ETLJob where
  status : String
  start_time : Option String
  end_time : Option String
  records_processed : Nat
  records_failed : Nat
  error_message : Option String
  data_source : DataSource
  result_metadata : Value
deriving Repr

/-- The job table. -/
abbrev Store := List (Nat × ETLJob)

def getJob : Store → Nat → Option ETLJob
  | [], _ => none
  | (i, j) :: rest, k => if i = k then some j else getJob rest k

def putJob : Store → Nat → ETLJob → Store
  | [], k, j => [(k, j)]
  | (i, j') :: rest, k, j => if i = k then (i, j) :: rest else (i, j') :: putJob rest k j

/-- The static service-name → base-URL registry
(`self.microservice_endpoints`). -/
def microserviceEndpoints : List (String × String) :=
  [("accounts-payable", "http://localhost:8001/api"),
   ("accounts-receivable", "http://localhost:8002/api"),
   ("authentication", "http://localhost:8003/api"),
   ("cash-flow", "http://localhost:8004/api"),
   ("company", "http://localhost:8005/api"),
   ("create-people", "http://localhost:8006/api"),
   ("employee-costs", "http://localhost:8007/api"),
   ("project-management", "http://localhost:8008/api"),
   ("supplier", "http://localhost:8009/api"),
   ("bank-integration", "http://localhost:8010/api"),
   ("financial-reports", "http://localhost:8011/api"),
   ("communication", "http://localhost:8012/api"),
   ("calculation-materials", "http://localhost:8013/api"),
   ("construction-integrations", "http://localhost:8014/api")]

/-- Result of one `_extract_from_*` routine. -/
structure ExtractResult where
  records_processed : Nat
  records_failed : Nat
  metadata : Value
deriving Repr

/-- The per-endpoint loop of `_extract_from_microservice`: a transport
error or a non-200 status counts the endpoint as failed; a 200
response is validated and, when valid, transformed and counted by its
transformed-record count; an invalid payload counts the endpoint as
failed with its errors attached; a 200 response whose body is not JSON
raises out of the loop (only `requests.RequestException` is caught
there). Returns (records processed, endpoints failed, per-endpoint
details in iteration order). -/
def extractLoop (env : Env) (fetch : String → FetchOutcome) (serviceName baseUrl : String) :
    List Value → Except String (Nat × Nat × List (String × Value))
  | [] => .ok (0, 0, [])
  | ep :: rest => do
    let epName := pyStr ep
    let url := baseUrl ++ "/" ++ epName
    let (here, fail, detail) ←
      match fetch url with
      | .transportError e =>
        .ok (0, 1, vDict [("status", vStr "connection_error"), ("error", vStr e)])
      | .response status body =>
        if status = 200 then do
          let data ← body
          let vres := validate_microservice_data env serviceName epName data
          if vres.is_valid then
            let tdata := transform_microservice_data env serviceName epName data
            -- `_store_in_warehouse`: metric rows, outside the model
            .ok (tdata.length, 0,
              vDict [("records", vNum (tdata.length : ℚ)), ("status", vStr "success")])
          else
            .ok (0, 1, vDict [("status", vStr "validation_failed"),
              ("errors", vList (vres.errors.map vStr))])
        else
          .ok (0, 1, vDict [("status", vStr "http_error"),
            ("status_code", vNum (status : ℚ))])
    let (total, failed, details) ← extractLoop env fetch serviceName baseUrl rest
    .ok (here + total, fail + failed, (epName, detail) :: details)

/-- `ETLService._extract_from_microservice`. A malformed connection
string, a non-dict connection payload, an unknown service name, a
non-list endpoint collection or a non-JSON 200 body all raise
(`.error`), which `run_job` turns into a failed job; per-endpoint
failures only bump the failed counter. -/
def extract_from_microservice (env : Env) (fetch : String → FetchOutcome)
    (source : DataSource) : Except String ExtractResult := do
  let conn ← source.connection
  let serviceNameV ← pyGet conn "service_name"
  let endpointsV ← pyGet conn "endpoints"
  let endpoints ←
    match endpointsV with
    | vNull => .ok ([] : List Value)  -- `.get('endpoints', [])` default
    | vList l => .ok l
    | _ => .error "TypeError: endpoints is not iterable"
  let serviceName ←
    match serviceNameV with
    | vStr s =>
      if (assocLookup microserviceEndpoints s).isSome then .ok s
      else .error ("Unknown microservice: " ++ s)
    | v => .error ("Unknown microservice: " ++ pyStr v)
  let baseUrl := (assocLookup microserviceEndpoints serviceName).getD ""
  let (total, failed, details) ← extractLoop env fetch serviceName baseUrl endpoints
  .ok { records_processed := total
        records_failed := failed
        metadata := vDict [("service_name", vStr serviceName),
          ("endpoints_processed", vNum (endpoints.length : ℚ)),
          ("extraction_details", vDict (details.map fun p => (p.1, p.2)))] }

/-- The `database`/`api`/`file` stubs: parse the connection string
(a failure raises), then report zero processed and zero failed. -/
def extractStub (source : DataSource) (kind : String) : Except String ExtractResult := do
  let _ ← source.connection
  .ok { records_processed := 0, records_failed := 0
        metadata := vDict [("type", vStr kind), ("status", vStr "not_implemented")] }

/-- Dispatch on `source.type`; an unsupported type raises
`ValueError`. -/
def dispatchExtraction (env : Env) (fetch : String → FetchOutcome) (source : DataSource) :
    Except String ExtractResult :=
  if source.type = "microservice" then extract_from_microservice env fetch source
  else if source.type = "database" then extractStub source "database"
  else if source.type = "api" then extractStub source "api"
  else if source.type = "file" then extractStub source "file"
  else .error ("Unsupported source type: " ++ source.type)

/-- The background task `run_job` of `execute_etl_job`, as a store
transformer. A missing job logs and returns (no state change).
Otherwise the job is set to `running` (committed), extraction is
dispatched, and the job is finished as `completed` with the aggregate
counters — or, when the extraction routine raises, re-read in its
`running` state and finished as `failed` with the message. On
completion the source's `last_sync` is stamped. -/
def runJob (env : Env) (fetch : String → FetchOutcome) (jobId : Nat) (st : Store) : Store :=
  match getJob st jobId with
  | none => st
  | some job =>
    let job1 := { job with status := "running", start_time := some env.nowIso }
    let st1 := putJob st jobId job1
    match dispatchExtraction env fetch job1.data_source with
    | .ok result =>
      putJob st1 jobId
        { job1 with
          status := "completed"
          end_time := some env.nowIso
          records_processed := result.records_processed
          records_failed := result.records_failed
          result_metadata := result.metadata
          data_source := { job1.data_source with last_sync := some env.nowIso } }
    | .error e =>
      putJob st1 jobId
        { job1 with
          status := "failed"
          end_time := some env.nowIso
          error_message := some e }

/-- The synchronous handle returned by `execute_etl_job`. -/
structure SubmitResult where
  status : String
  job_id : Nat
deriving Repr, DecidableEq

/-- `ETLService.execute_etl_job`: spawns `run_job` on a thread and
returns at once. The synchronous path performs no store access — the
store component is returned unchanged — and the handle is
`{'status': 'started', 'job_id': job_id}` whether or not the job
exists; `runJob` is the spawned task. -/
def execute_etl_job (jobId : Nat) (st : Store) : SubmitResult × Store :=
  ({ status := "started", job_id := jobId }, st)

/-! ### Supporting lemmas -/

theorem lookupK_setK (r : Record) (k : String) (v : Value) (k' : String) :
    lookupK (setK r k v) k' = if k = k' then some v else lookupK r k' := by
  induction r with
  | nil => simp [setK, lookupK]
  | cons p rest ih =>
    obtain ⟨k1, v1⟩ := p
    by_cases h1 : k1 = k
    · subst h1
      simp only [setK, if_pos rfl, lookupK]
      by_cases h2 : k1 = k'
      · subst h2; simp [lookupK]
      · simp [lookupK, h2, if_neg h2]
    · simp only [setK, if_neg h1, lookupK]
      by_cases h2 : k1 = k'
      · subst h2
        have : ¬ k = k1 := fun h => h1 h.symm
        simp [this]
      · simp [h2, ih]

theorem getJob_putJob (st : Store) (k : Nat) (j : ETLJob) (k' : Nat) :
    getJob (putJob st k j) k' = if k = k' then some j else getJob st k' := by
  induction st with
  | nil => simp [putJob, getJob]
  | cons p rest ih =>
    obtain ⟨k1, j1⟩ := p
    by_cases h1 : k1 = k
    · subst h1
      simp only [putJob, if_pos rfl, getJob]
      by_cases h2 : k1 = k'
      · subst h2; simp [getJob]
      · simp [getJob, h2, if_neg h2]
    · simp only [putJob, if_neg h1, getJob]
      by_cases h2 : k1 = k'
      · subst h2
        have : ¬ k = k1 := fun h => h1 h.symm
        simp [this]
      · simp [h2, ih]

/-- A fixed concrete environment used to instantiate universally
quantified theorems: noon of 2025-06-15, with a stand-in string
hash. -/
def envW : Env :=
  ⟨rataDie ⟨2025, 6, 15⟩, true, "2025-06-15T12:00:00", fun s => (s.length : Int)⟩

/-! ### C2 — validating an empty record sequence -/

/-- Counterexample to C2: an empty list payload is falsy in Python, so
`validate_microservice_data` rejects it with `is_valid = false` and
the error 'No data received' — not the `isValid = true` verdict the
claim states. -/
theorem empty_list_payload_rejected :
    validate_microservice_data envW "accounts-payable" "payables" (vList []) =
      ⟨false, ["No data received"], [], 0, 0⟩ := by
  rfl

/-- C2 (amended): for every environment, source name and endpoint, an
empty list payload yields `is_valid = false` with the single error
'No data received' and zero records validated/failed and no warnings;
an empty record sequence inside a `data` wrapper, by contrast, yields
the all-zero valid verdict. -/
theorem validate_empty_sequence (env : Env) (service endpoint : String) :
    validate_microservice_data env service endpoint (vList []) =
      ⟨false, ["No data received"], [], 0, 0⟩ ∧
    validate_microservice_data env service endpoint (vDict [("data", vList [])]) =
      ⟨true, [], [], 0, 0⟩ := by
  constructor <;> rfl

/-! ### C5 — collection-probability amount tier -/

/-- C5: the source tests `amount > 100000` before
`elif amount > 500000`, so the 0.8 tier is dead code: a receivable of
amount 600000 with no overdue or status discounts gets probability
0.9, not the 0.8 the claim (and the spec) state. -/
theorem collection_probability_amount_600000 (env : Env) :
    calculate_collection_probability env
      [("id", vStr "r1"), ("amount", vNum 600000), ("customer_id", vStr "c1")] =
      some (9 / 10) := by
  unfold calculate_collection_probability
  simp [collectionOverdueFactor, collectionAmountFactor, collectionStatusAdjust,
    lookupK, pyTruthy, pyFloat, bind, Option.bind]
  norm_num [sup_eq_max, max_def]

/-! ### C9 — validator totality and counter sanity -/

theorem validateLoop_counters (env : Env) (service : String) :
    ∀ (records : List Value) (i : Nat) (acc res : Verdict),
      validateLoop env service records i acc = .ok res →
      acc.records_failed ≤ acc.records_validated →
      res.records_failed ≤ res.records_validated := by
  intro records
  induction records with
  | nil =>
    intro i acc res h hle
    simp only [validateLoop] at h
    cases h
    exact hle
  | cons r rest ih =>
    intro i acc res h hle
    simp only [validateLoop, bind, Except.bind] at h
    cases hr : validateRecord env service r i with
    | error e => rw [hr] at h; cases h
    | ok rv =>
      rw [hr] at h
      refine ih (i + 1) _ res h ?_
      simp only
      split <;> omega

/-- C9: `validate_microservice_data` is total at its public interface
(the embedding is a total function, mirroring the catch-all handler),
and every verdict it returns — including the early rejections and the
exception-path verdict — satisfies
`records_failed ≤ records_validated`. -/
theorem validate_counters_sane (env : Env) (service endpoint : String) (data : Value) :
    (validate_microservice_data env service endpoint data).records_failed ≤
      (validate_microservice_data env service endpoint data).records_validated := by
  unfold validate_microservice_data
  split
  · simp
  · split
    · simp
    · rename_i records _
      cases hl : validateLoop env service records 0 ⟨true, [], [], 0, 0⟩ with
      | ok acc =>
        have hc := validateLoop_counters env service records 0 _ acc hl (by simp)
        simp only [hl]
        split <;> simpa
      | error e => simp only [hl]; simp

/-! ### C4 — job submission semantics -/

/-- A pending job over a well-formed microservice source, used to
instantiate the orchestrator theorems. -/
def srcPayable : DataSource :=
  { type := "microservice"
    connection := .ok (vDict [("service_name", vStr "accounts-payable"),
      ("endpoints", vList [vStr "payables", vStr "suppliers", vStr "status"])])
    last_sync := none }

def jobPending : ETLJob :=
  { status := "pending", start_time := none, end_time := none, records_processed := 0,
    records_failed := 0, error_message := none, data_source := srcPayable,
    result_metadata := vNull }

/-- A fetch oracle whose every request fails at transport level. -/
def fetchDown : String → FetchOutcome := fun _ => .transportError "connection refused"

/-- Counterexample to C4: submitting a job id that does not exist
returns the same `{'status': 'started'}` handle — not an error — and
submitting an existing pending job leaves it in `pending` at return
time: the transition to `running` is not synchronous. -/
theorem submit_missing_job_no_error :
    (execute_etl_job 42 [(1, jobPending)]).1 = ⟨"started", 42⟩ ∧
    (execute_etl_job 1 [(1, jobPending)]).2 = [(1, jobPending)] ∧
    (getJob (execute_etl_job 1 [(1, jobPending)]).2 1).map ETLJob.status = some "pending" := by
  refine ⟨rfl, rfl, rfl⟩

/-- C4 (amended): `execute_etl_job` returns `{status: started, jobID}`
synchronously for every job id, existing or not, and performs no
synchronous state change; the job lookup and the transition to
`running` happen in the spawned background task, which for a
nonexistent job id only logs and performs no state change. -/
theorem submit_is_asynchronous (env : Env) (fetch : String → FetchOutcome)
    (jobId : Nat) (st : Store) :
    execute_etl_job jobId st = (⟨"started", jobId⟩, st) ∧
    (getJob st jobId = none → runJob env fetch jobId st = st) := by
  refine ⟨rfl, fun h => ?_⟩
  unfold runJob
  rw [h]

/-- Witness for the amended C4 at a concrete store and missing id. -/
theorem submit_is_asynchronous_witness :
    runJob envW fetchDown 42 [(1, jobPending)] = [(1, jobPending)] :=
  (submit_is_asynchronous envW fetchDown 42 [(1, jobPending)]).2 rfl

/-! ### C3 — per-endpoint failures never fail the job -/

/-- A fetch outcome that cannot raise out of the endpoint loop: a
transport error, a non-200 response, or a 200 response whose body is
valid JSON. -/
def benignOutcome : FetchOutcome → Bool
  | .transportError _ => true
  | .response status body =>
    if status = 200 then (match body with | .ok _ => true | .error _ => false) else true

theorem extractLoop_benign_ok (env : Env) (fetch : String → FetchOutcome)
    (sname baseUrl : String) :
    ∀ eps : List Value,
      (∀ ep ∈ eps, benignOutcome (fetch (baseUrl ++ "/" ++ pyStr ep))) →
      ∃ out, extractLoop env fetch sname baseUrl eps = .ok out := by
  intro eps
  induction eps with
  | nil => intro _; exact ⟨(0, 0, []), rfl⟩
  | cons ep rest ih =>
    intro hben
    obtain ⟨out, hout⟩ := ih (fun e he => hben e (List.mem_cons_of_mem _ he))
    have hb := hben ep (List.mem_cons_self _ _)
    cases hf : fetch (baseUrl ++ "/" ++ pyStr ep) with
    | transportError e =>
      simp only [extractLoop, bind, Except.bind, hf, hout]
      exact ⟨_, rfl⟩
    | response status body =>
      rw [hf] at hb
      simp only [benignOutcome] at hb
      by_cases h200 : status = 200
      · subst h200
        simp only [if_pos rfl] at hb
        cases body with
        | error e => simp at hb
        | ok data =>
          simp only [extractLoop, bind, Except.bind, hf, hout, reduceIte]
          split
          · exact ⟨_, rfl⟩
          · exact ⟨_, rfl⟩
      · simp only [extractLoop, bind, Except.bind, hf, hout, if_neg h200]
        exact ⟨_, rfl⟩

theorem dispatch_benign_ok (env : Env) (fetch : String → FetchOutcome)
    (source : DataSource) (cd : Record) (sname baseUrl : String) (eps : List Value)
    (htype : source.type = "microservice")
    (hconn : source.connection = .ok (vDict cd))
    (hsn : lookupK cd "service_name" = some (vStr sname))
    (hreg : assocLookup microserviceEndpoints sname = some baseUrl)
    (heps : lookupK cd "endpoints" = some (vList eps))
    (hben : ∀ ep ∈ eps, benignOutcome (fetch (baseUrl ++ "/" ++ pyStr ep))) :
    ∃ r, dispatchExtraction env fetch source = .ok r := by
  obtain ⟨out, hout⟩ := extractLoop_benign_ok env fetch sname baseUrl eps hben
  unfold dispatchExtraction
  rw [if_pos htype]
  unfold extract_from_microservice
  simp only [hconn, bind, Except.bind, pyGet, hsn, heps, hreg, Option.isSome_some,
    reduceIte, Option.getD_some, hout]
  exact ⟨_, rfl⟩

/-- C3: for a microservice-kind job whose connection spec is
well-formed (known service name, list of endpoints), if every
endpoint's fetch outcome is benign — a transport error, a non-2xx
response, or a 200 response with a JSON body (validation failures
included: validation always returns a verdict) — the spawned task
finishes the job as `completed`, whatever mix of per-endpoint failures
occurred. -/
theorem microservice_job_completes (env : Env) (fetch : String → FetchOutcome)
    (st : Store) (jobId : Nat) (job : ETLJob) (cd : Record)
    (sname baseUrl : String) (eps : List Value)
    (hjob : getJob st jobId = some job)
    (htype : job.data_source.type = "microservice")
    (hconn : job.data_source.connection = .ok (vDict cd))
    (hsn : lookupK cd "service_name" = some (vStr sname))
    (hreg : assocLookup microserviceEndpoints sname = some baseUrl)
    (heps : lookupK cd "endpoints" = some (vList eps))
    (hben : ∀ ep ∈ eps, benignOutcome (fetch (baseUrl ++ "/" ++ pyStr ep))) :
    ∃ job', getJob (runJob env fetch jobId st) jobId = some job' ∧
      job'.status = "completed" := by
  obtain ⟨r, hr⟩ := dispatch_benign_ok env fetch
    ({ job with status := "running", start_time := some env.nowIso } : ETLJob).data_source
    cd sname baseUrl eps htype hconn hsn hreg heps hben
  unfold runJob
  rw [hjob]
  simp only [hr, getJob_putJob, if_pos rfl]
  exact ⟨_, rfl, rfl⟩

/-- A valid accounts-payable record for the C3 scenario. -/
def goodPayV : Value := vDict [("id", vStr "p1"), ("amount", vNum 100),
  ("due_date", vStr "2025-01-01"), ("supplier_id", vStr "s1"), ("status", vStr "approved")]

/-- Endpoint A's body: five valid records. -/
def goodData : Value := vList [goodPayV, goodPayV, goodPayV, goodPayV, goodPayV]

/-- Endpoint C's body: one record failing validation. -/
def badData : Value := vList [vDict [("id", vStr "x")]]

/-- The errors endpoint C's payload accumulates. -/
def badErrs : List String := ["Record 0: Missing required field \"amount\"",
  "Record 0: Missing required field \"due_date\"",
  "Record 0: Missing required field \"supplier_id\""]

/-- The three-endpoint scenario fetch oracle: A returns 200 with five
valid records, B returns 500, C returns 200 with a payload that fails
validation. -/
def fetchScenario : String → FetchOutcome := fun url =>
  if url = "http://localhost:8001/api/payables" then .response 200 (.ok goodData)
  else if url = "http://localhost:8001/api/suppliers" then .response 500 (.ok vNull)
  else if url = "http://localhost:8001/api/status" then .response 200 (.ok badData)
  else .transportError "no route"

/-- Witness for C3 at the claim's 3-endpoint scenario: the theorem
applies (the job completes), and the completed job carries
`records_processed = 5` (endpoint A's five records) and
`records_failed = 2` (endpoints B and C). -/
theorem microservice_job_completes_witness :
    (∃ job', getJob (runJob envW fetchScenario 1 [(1, jobPending)]) 1 = some job' ∧
      job'.status = "completed") ∧
    (getJob (runJob envW fetchScenario 1 [(1, jobPending)]) 1).map
      (fun j => (j.status, j.records_processed, j.records_failed)) =
      some ("completed", 5, 2) := by
  constructor
  · exact microservice_job_completes envW fetchScenario [(1, jobPending)] 1 jobPending
      [("service_name", vStr "accounts-payable"),
        ("endpoints", vList [vStr "payables", vStr "suppliers", vStr "status"])]
      "accounts-payable" "http://localhost:8001/api"
      [vStr "payables", vStr "suppliers", vStr "status"]
      rfl rfl rfl rfl rfl rfl (by intro ep hep; fin_cases hep <;> rfl)
  · have hA : validate_microservice_data envW "accounts-payable" "payables" goodData =
        ⟨true, [], [], 5, 0⟩ := rfl
    have hAT : (transform_microservice_data envW "accounts-payable" "payables"
        goodData).length = 5 := rfl
    have hC : validate_microservice_data envW "accounts-payable" "status" badData =
        ⟨false, badErrs, [], 1, 1⟩ := by
      unfold validate_microservice_data
      norm_num [badData, pyTruthy, extractRecordsV,
        show validateLoop envW "accounts-payable" [vDict [("id", vStr "x")]] 0
            ⟨true, [], [], 0, 0⟩ = .ok ⟨true, badErrs, [], 1, 1⟩ from rfl]
    simp [runJob, getJob, dispatchExtraction, extract_from_microservice, extractLoop,
      pyGet, lookupK, assocLookup, microserviceEndpoints, srcPayable, jobPending,
      fetchScenario, pyStr, bind, Except.bind, hA, hAT, hC, putJob]

/-! ### C1 — pattern mismatches are hard errors -/

theorem requiredFieldErrors_dict_ok (d : Record) (i : Nat) :
    ∀ fields, ∃ es, requiredFieldErrors (vDict d) fields i = .ok es := by
  intro fields
  induction fields with
  | nil => exact ⟨[], rfl⟩
  | cons f rest ih =>
    obtain ⟨es, hes⟩ := ih
    simp only [requiredFieldErrors, bind, Except.bind, pyIn, pyIndex, pure, Except.pure]
    cases hl : lookupK d f with
    | none =>
      simp only [hl, Option.isSome_none, Bool.false_eq_true, reduceIte, hes]
      exact ⟨_, rfl⟩
    | some v =>
      simp only [hl, Option.isSome_some, reduceIte, hes]
      exact ⟨_, rfl⟩

theorem typeCheckErrors_dict_ok (d : Record) (i : Nat) :
    ∀ types, ∃ es, typeCheckErrors (vDict d) types i = .ok es := by
  intro types
  induction types with
  | nil => exact ⟨[], rfl⟩
  | cons p rest ih =>
    obtain ⟨f, ty⟩ := p
    obtain ⟨es, hes⟩ := ih
    simp only [typeCheckErrors, bind, Except.bind, pyIn, pyIndex, pure, Except.pure]
    cases hl : lookupK d f with
    | none =>
      simp only [hl, Option.isSome_none, Bool.false_eq_true, reduceIte, hes]
      exact ⟨_, rfl⟩
    | some v =>
      simp only [hl, Option.isSome_some, reduceIte, hes]
      exact ⟨_, rfl⟩

theorem rangeCheckErrors_dict_ok (d : Record) (i : Nat) :
    ∀ ranges, ∃ es, rangeCheckErrors (vDict d) ranges i = .ok es := by
  intro ranges
  induction ranges with
  | nil => exact ⟨[], rfl⟩
  | cons p rest ih =>
    obtain ⟨f, lo, hi⟩ := p
    obtain ⟨es, hes⟩ := ih
    simp only [rangeCheckErrors, bind, Except.bind, pyIn, pyIndex, pure, Except.pure]
    cases hl : lookupK d f with
    | none =>
      simp only [hl, Option.isSome_none, Bool.false_eq_true, reduceIte, hes]
      exact ⟨_, rfl⟩
    | some v =>
      simp only [hl, Option.isSome_some, reduceIte, hes]
      by_cases hn : v = vNull
      · simp only [hn, reduceIte]; exact ⟨_, rfl⟩
      · simp only [if_neg hn]
        cases pyFloat v <;> exact ⟨_, rfl⟩

theorem patternCheckErrors_dict_ok (d : Record) (i : Nat) :
    ∀ pats, ∃ es, patternCheckErrors (vDict d) pats i = .ok es := by
  intro pats
  induction pats with
  | nil => exact ⟨[], rfl⟩
  | cons p rest ih =>
    obtain ⟨f, pat⟩ := p
    obtain ⟨es, hes⟩ := ih
    simp only [patternCheckErrors, bind, Except.bind, pyIn, pyIndex, pure, Except.pure]
    cases hl : lookupK d f with
    | none =>
      simp only [hl, Option.isSome_none, Bool.false_eq_true, reduceIte, hes]
      exact ⟨_, rfl⟩
    | some v =>
      simp only [hl, Option.isSome_some, reduceIte, hes]
      exact ⟨_, rfl⟩

theorem patternCheckErrors_fail (d : Record) (i : Nat) :
    ∀ pats (f pat : String) (v : Value), (f, pat) ∈ pats → lookupK d f = some v →
      v ≠ vNull → reMatch pat (pyStr v) = false →
      ∀ es, patternCheckErrors (vDict d) pats i = .ok es → es ≠ [] := by
  intro pats
  induction pats with
  | nil => intro f pat v hm; cases hm
  | cons p rest ih =>
    intro f pat v hm hl hnn hnm es hes
    obtain ⟨f1, pat1⟩ := p
    rcases List.mem_cons.mp hm with heq | hmem
    · cases heq
      simp only [patternCheckErrors, bind, Except.bind, pyIn, pyIndex, pure, Except.pure,
        hl, Option.isSome_some, reduceIte] at hes
      rw [if_pos ⟨hnn, by simp [hnm]⟩] at hes
      obtain ⟨tail, htail⟩ := patternCheckErrors_dict_ok d i rest
      rw [htail] at hes
      cases hes
      simp
    · simp only [patternCheckErrors, bind, Except.bind, pyIn, pyIndex, pure,
        Except.pure] at hes
      cases hl1 : lookupK d f1 with
      | none =>
        simp only [hl1, Option.isSome_none, Bool.false_eq_true, reduceIte] at hes
        cases htail : patternCheckErrors (vDict d) rest i with
        | error e => rw [htail] at hes; cases hes
        | ok tail =>
          rw [htail] at hes
          cases hes
          have := ih f pat v hmem hl hnn hnm tail htail
          simpa using this
      | some v1 =>
        simp only [hl1, Option.isSome_some, reduceIte] at hes
        cases htail : patternCheckErrors (vDict d) rest i with
        | error e => rw [htail] at hes; cases hes
        | ok tail =>
          rw [htail] at hes
          cases hes
          have := ih f pat v hmem hl hnn hnm tail htail
          intro hcontra
          exact this (List.append_eq_nil.mp hcontra).2

theorem pattern_mismatch_invalidates_record (env : Env) (service : String)
    (rules : ValidationRules) (d : Record) (i : Nat) (f pat : String) (v : Value)
    (hrules : validationRulesFor service = some rules)
    (hpat : (f, pat) ∈ rules.field_patterns)
    (hv : lookupK d f = some v) (hnn : v ≠ vNull)
    (hm : reMatch pat (pyStr v) = false) :
    ∃ rv, validateRecord env service (vDict d) i = .ok rv ∧
      rv.is_valid = false ∧ rv.errors ≠ [] := by
  obtain ⟨e1, h1⟩ := requiredFieldErrors_dict_ok d i rules.required_fields
  obtain ⟨e2, h2⟩ := typeCheckErrors_dict_ok d i rules.field_types
  obtain ⟨e3, h3⟩ := rangeCheckErrors_dict_ok d i rules.field_ranges
  obtain ⟨e4, h4⟩ := patternCheckErrors_dict_ok d i rules.field_patterns
  have h4ne : e4 ≠ [] :=
    patternCheckErrors_fail d i rules.field_patterns f pat v hpat hv hnn hm e4 h4
  rcases hbz : validateBusinessLogic env service (vDict d) i with ⟨be, bw⟩
  have hne : e1 ++ e2 ++ e3 ++ e4 ++ be ≠ [] := by
    intro hc
    rcases List.append_eq_nil.mp hc with ⟨hc1, _⟩
    rcases List.append_eq_nil.mp hc1 with ⟨_, hc2⟩
    exact h4ne hc2
  have hemp : (e1 ++ e2 ++ e3 ++ e4 ++ be).isEmpty = false := by
    cases hE : e1 ++ e2 ++ e3 ++ e4 ++ be with
    | nil => exact absurd hE hne
    | cons a l => rfl
  refine ⟨⟨(e1 ++ e2 ++ e3 ++ e4 ++ be).isEmpty, e1 ++ e2 ++ e3 ++ e4 ++ be, bw⟩,
    ?_, hemp, hne⟩
  unfold validateRecord
  rw [hrules]
  simp only [bind, Except.bind, h1, h2, h3, h4, hbz]

/-- Counterexample to C1: a payable record that passes every other
check but whose `status` fails the regex pattern ends up with a hard
error, an invalid verdict and `records_failed = 1` — not the
warning-only outcome the claim states. -/
theorem pattern_mismatch_not_warning :
    validate_microservice_data envW "accounts-payable" "payables"
      (vList [vDict [("id", vStr "p1"), ("amount", vNum 100),
        ("due_date", vStr "2025-01-01"), ("supplier_id", vStr "s1"),
        ("status", vStr "weird")]]) =
    ⟨false, ["Record 0: Field \"status\" does not match required pattern"], [], 1, 1⟩ := by
  unfold validate_microservice_data
  norm_num [pyTruthy, extractRecordsV,
    show validateLoop envW "accounts-payable"
        [vDict [("id", vStr "p1"), ("amount", vNum 100), ("due_date", vStr "2025-01-01"),
          ("supplier_id", vStr "s1"), ("status", vStr "weird")]] 0 ⟨true, [], [], 0, 0⟩ =
      .ok ⟨true, ["Record 0: Field \"status\" does not match required pattern"], [], 1, 1⟩
      from rfl]

/-- C1 (amended): for every source with a declared rule set, a record
whose configured pattern check fails (field present, non-null, value
not matching) is marked invalid with at least one error appended — a
pattern mismatch is a hard error, not a warning — and a singleton
payload containing it is counted in `records_failed` and makes the
whole verdict invalid. -/
theorem pattern_mismatch_is_hard_error (env : Env) (service endpoint : String)
    (rules : ValidationRules) (d : Record) (i : Nat) (f pat : String) (v : Value)
    (hrules : validationRulesFor service = some rules)
    (hpat : (f, pat) ∈ rules.field_patterns)
    (hv : lookupK d f = some v) (hnn : v ≠ vNull)
    (hm : reMatch pat (pyStr v) = false) :
    (∃ rv, validateRecord env service (vDict d) i = .ok rv ∧
      rv.is_valid = false ∧ rv.errors ≠ []) ∧
    (validate_microservice_data env service endpoint (vList [vDict d])).records_failed = 1 ∧
    (validate_microservice_data env service endpoint (vList [vDict d])).is_valid = false := by
  refine ⟨pattern_mismatch_invalidates_record env service rules d i f pat v
    hrules hpat hv hnn hm, ?_⟩
  obtain ⟨rv, hrec, hval, herr⟩ :=
    pattern_mismatch_invalidates_record env service rules d 0 f pat v hrules hpat hv hnn hm
  have hloop : validateLoop env service [vDict d] 0 ⟨true, [], [], 0, 0⟩ =
      .ok ⟨true, rv.errors, rv.warnings, 1, 1⟩ := by
    simp [validateLoop, bind, Except.bind, hrec, hval]
  unfold validate_microservice_data
  norm_num [pyTruthy, extractRecordsV, hloop]

/-- Witness for the amended C1 at the concrete bad-status record. -/
theorem pattern_mismatch_is_hard_error_witness :
    (∃ rv, validateRecord envW "accounts-payable"
        (vDict [("id", vStr "p1"), ("amount", vNum 100), ("due_date", vStr "2025-01-01"),
          ("supplier_id", vStr "s1"), ("status", vStr "weird")]) 0 = .ok rv ∧
      rv.is_valid = false ∧ rv.errors ≠ []) ∧
    (validate_microservice_data envW "accounts-payable" "payables"
      (vList [vDict [("id", vStr "p1"), ("amount", vNum 100), ("due_date", vStr "2025-01-01"),
        ("supplier_id", vStr "s1"), ("status", vStr "weird")]])).records_failed = 1 ∧
    (validate_microservice_data envW "accounts-payable" "payables"
      (vList [vDict [("id", vStr "p1"), ("amount", vNum 100), ("due_date", vStr "2025-01-01"),
        ("supplier_id", vStr "s1"), ("status", vStr "weird")]])).is_valid = false :=
  pattern_mismatch_is_hard_error envW "accounts-payable" "payables"
    ⟨["id", "amount", "due_date", "supplier_id"],
      [("id", "string"), ("amount", "numeric"), ("due_date", "date"),
        ("supplier_id", "string"), ("status", "string")],
      [("amount", 0, 10000000)],
      [("status", "^(pending|approved|paid|cancelled)$")]⟩
    [("id", vStr "p1"), ("amount", vNum 100), ("due_date", vStr "2025-01-01"),
      ("supplier_id", vStr "s1"), ("status", vStr "weird")]
    0 "status" "^(pending|approved|paid|cancelled)$" (vStr "weird")
    rfl (by simp) rfl (by simp) rfl

/-! ### C10 — business date rules fire only on `%Y-%m-%d` strings -/

/-- C10: the project end-after-start rule and the pending-payable
past-due warning parse their dates with `strptime(·, '%Y-%m-%d')`
inside a `try/except ValueError: pass`; a date string in any other
accepted format (e.g. `DD/MM/YYYY`) passes the declared `date` type
check yet silently skips these business checks — no error, no
warning — while `%Y-%m-%d` strings with end ≤ start do produce the
hard error. -/
theorem business_checks_require_iso_dates (env : Env) (i : Nat) (a b c : String) :
    ((parseDMY a).isSome → validateFieldType (vStr a) "date" = true) ∧
    (parseYMD a = none → parseYMD b = none →
      validateBusinessLogic env "project-management"
        (vDict [("start_date", vStr a), ("end_date", vStr b)]) i = ([], [])) ∧
    (∀ da db, parseYMD a = some da → parseYMD b = some db → rataDie db ≤ rataDie da →
      validateBusinessLogic env "project-management"
        (vDict [("start_date", vStr a), ("end_date", vStr b)]) i =
        (["Record " ++ toString i ++ ": End date must be after start date"], [])) ∧
    (parseYMD c = none →
      validateBusinessLogic env "accounts-payable"
        (vDict [("status", vStr "pending"), ("due_date", vStr c)]) i = ([], [])) := by
  refine ⟨?_, ?_, ?_, ?_⟩
  · intro h
    simp [validateFieldType, h]
  · intro ha hb
    simp [validateBusinessLogic, businessCore, pyIn, pyIndex, pyGet, lookupK, bind,
      Except.bind, pure, Except.pure, ha, hb]
  · intro da db hda hdb hle
    simp [validateBusinessLogic, businessCore, pyIn, pyIndex, pyGet, lookupK, bind,
      Except.bind, pure, Except.pure, hda, hdb, hle]
  · intro hc
    simp [validateBusinessLogic, businessCore, pyIn, pyIndex, pyGet, lookupK, bind,
      Except.bind, pure, Except.pure, hc]

/-- Witness for C10: `DD/MM/YYYY` dates (end before start, due date
long past) type-check but produce no business error or warning, while
the equivalent `%Y-%m-%d` dates do trigger the end-date error. -/
theorem business_checks_require_iso_dates_witness :
    (validateFieldType (vStr "02/01/2025") "date" = true) ∧
    (validateBusinessLogic envW "project-management"
      (vDict [("start_date", vStr "02/01/2025"), ("end_date", vStr "01/01/2025")]) 0 =
      ([], [])) ∧
    (validateBusinessLogic envW "accounts-payable"
      (vDict [("status", vStr "pending"), ("due_date", vStr "01/01/2020")]) 0 = ([], [])) ∧
    (validateBusinessLogic envW "project-management"
      (vDict [("start_date", vStr "2025-01-02"), ("end_date", vStr "2025-01-01")]) 0 =
      (["Record 0: End date must be after start date"], [])) :=
  ⟨(business_checks_require_iso_dates envW 0 "02/01/2025" "01/01/2025" "01/01/2020").1 rfl,
   (business_checks_require_iso_dates envW 0 "02/01/2025" "01/01/2025" "01/01/2020").2.1
     rfl rfl,
   (business_checks_require_iso_dates envW 0 "02/01/2025" "01/01/2025" "01/01/2020").2.2.2
     rfl,
   (business_checks_require_iso_dates envW 0 "2025-01-02" "2025-01-01" "x").2.2.1
     ⟨2025, 1, 2⟩ ⟨2025, 1, 1⟩ rfl rfl (by decide)⟩

/-! ### C7 — score outputs stay in the unit interval -/

theorem riskAmountFactor_nonneg (d : Record) (x : ℚ) (h : riskAmountFactor d = some x) :
    0 ≤ x := by
  unfold riskAmountFactor at h
  repeat split at h
  all_goals first
    | exact Option.noConfusion h
    | (injection h with h1; subst h1; first | (split_ifs <;> norm_num) | norm_num)

theorem riskDueDateFactor_nonneg (env : Env) (d : Record) (x : ℚ)
    (h : riskDueDateFactor env d = some x) : 0 ≤ x := by
  unfold riskDueDateFactor at h
  repeat split at h
  all_goals first
    | exact Option.noConfusion h
    | (injection h with h1; subst h1; first | (split_ifs <;> norm_num) | norm_num)

theorem riskStatusFactor_nonneg (d : Record) (x : ℚ) (h : riskStatusFactor d = some x) :
    0 ≤ x := by
  unfold riskStatusFactor at h
  repeat split at h
  all_goals first
    | exact Option.noConfusion h
    | (injection h with h1; subst h1; first | (split_ifs <;> norm_num) | norm_num)

theorem collectionOverdueFactor_bounds (env : Env) (d : Record) (x : ℚ)
    (h : collectionOverdueFactor env d = some x) : 0 ≤ x ∧ x ≤ 1 := by
  unfold collectionOverdueFactor at h
  repeat split at h
  all_goals first
    | exact Option.noConfusion h
    | (injection h with h1; subst h1; constructor <;>
        first | (split_ifs <;> norm_num) | norm_num)

theorem collectionAmountFactor_bounds (d : Record) (x : ℚ)
    (h : collectionAmountFactor d = some x) : 0 ≤ x ∧ x ≤ 1 := by
  unfold collectionAmountFactor at h
  repeat split at h
  all_goals first
    | exact Option.noConfusion h
    | (injection h with h1; subst h1; constructor <;>
        first | (split_ifs <;> norm_num) | norm_num)

theorem collectionStatusAdjust_le_one (d : Record) (p x : ℚ) (hp1 : p ≤ 1)
    (h : collectionStatusAdjust d p = some x) : x ≤ 1 := by
  unfold collectionStatusAdjust at h
  repeat split at h
  all_goals first
    | exact Option.noConfusion h
    | (injection h with h1; subst h1; first | (split_ifs <;> nlinarith) | nlinarith)

/-- C7: whenever the payable risk score is non-null it lies in
[0, 1] (each additive factor is nonnegative and the sum is capped at
1), and whenever the receivable collection probability is non-null it
lies in [0, 1] (each multiplicative factor lies in [0, 1], the status
override can only reset to 1 or discount, and the result is floored
at 0). -/
theorem score_outputs_unit_interval (env : Env) (d : Record) (q : ℚ) :
    (calculate_payable_risk_score env d = some q → 0 ≤ q ∧ q ≤ 1) ∧
    (calculate_collection_probability env d = some q → 0 ≤ q ∧ q ≤ 1) := by
  constructor
  · intro h
    simp only [calculate_payable_risk_score, bind, Option.bind_eq_some, pure,
      Option.some.injEq] at h
    obtain ⟨f1, hf1, f2, hf2, f3, hf3, hq⟩ := h
    subst hq
    have h1 := riskAmountFactor_nonneg d f1 hf1
    have h2 := riskDueDateFactor_nonneg env d f2 hf2
    have h3 := riskStatusFactor_nonneg d f3 hf3
    exact ⟨le_min (by positivity) zero_le_one, min_le_right _ _⟩
  · intro h
    simp only [calculate_collection_probability, bind, Option.bind_eq_some, pure,
      Option.some.injEq] at h
    obtain ⟨p1, hp1, p2, hp2, p3, hp3, hq⟩ := h
    subst hq
    have h1 := collectionOverdueFactor_bounds env d p1 hp1
    have h2 := collectionAmountFactor_bounds d p2 hp2
    have hple : p1 * p2 ≤ 1 := by nlinarith [h1.1, h1.2, h2.1, h2.2]
    have h3 := collectionStatusAdjust_le_one d (p1 * p2) p3 hple hp3
    exact ⟨le_max_right _ _, max_le h3 zero_le_one⟩

/-- Witness for C7 at concrete records producing non-null scores. -/
theorem score_outputs_unit_interval_witness :
    calculate_payable_risk_score envW [("amount", vNum 150000)] = some (3 / 10) ∧
    calculate_collection_probability envW [("amount", vNum 150000)] = some (9 / 10) ∧
    (0 ≤ (3 : ℚ) / 10 ∧ (3 : ℚ) / 10 ≤ 1) ∧ (0 ≤ (9 : ℚ) / 10 ∧ (9 : ℚ) / 10 ≤ 1) := by
  have h1 : calculate_payable_risk_score envW [("amount", vNum 150000)] = some (3 / 10) := by
    unfold calculate_payable_risk_score riskAmountFactor riskDueDateFactor riskStatusFactor
    simp [lookupK, pyTruthy, pyFloat, bind, Option.bind]
    norm_num [inf_eq_min, min_def]
  have h2 : calculate_collection_probability envW [("amount", vNum 150000)] =
      some (9 / 10) := by
    unfold calculate_collection_probability collectionOverdueFactor collectionAmountFactor
      collectionStatusAdjust
    simp [lookupK, pyTruthy, pyFloat, bind, Option.bind]
    norm_num [sup_eq_max, max_def]
  exact ⟨h1, h2, (score_outputs_unit_interval envW [("amount", vNum 150000)] (3 / 10)).1 h1,
    (score_outputs_unit_interval envW [("amount", vNum 150000)] (9 / 10)).2 h2⟩

/-! ### C6 — system fields on transformed records -/

/-- Counterexample to C6: a source without a declared transformation
rule set returns the normalized records untouched — no
`_source_service`, no `_transformed_at`, no `_record_hash`. -/
theorem transform_unknown_source_raw :
    transform_microservice_data envW "unknown-service" "records"
      (vList [vDict [("a", vNum 1)]]) = [vDict [("a", vNum 1)]] ∧
    lookupK [("a", vNum 1)] "_source_service" = none ∧
    lookupK [("a", vNum 1)] "_record_hash" = none := ⟨rfl, rfl, rfl⟩

/-- C6 (amended): for every source *with* a declared transformation
rule set, every record returned by the transformation engine is the
transform of some input record and carries the three system fields,
with `_record_hash` the (process-seeded) hash of the canonical
key-sorted JSON serialization of the original pre-transform record;
sources without a rule set return the normalized input records raw. -/
theorem transform_adds_system_fields (env : Env) (service endpoint : String)
    (rules : TransformRules) (data : Value) (out : Value)
    (hrules : transformationRulesFor service = some rules)
    (hout : out ∈ transform_microservice_data env service endpoint data) :
    ∃ d, vDict d ∈ (extractRecordsV data).getD [] ∧
      out = vDict (transformRecordD env rules service d) ∧
      lookupK (transformRecordD env rules service d) "_source_service" =
        some (vStr service) ∧
      lookupK (transformRecordD env rules service d) "_transformed_at" =
        some (vStr env.nowIso) ∧
      lookupK (transformRecordD env rules service d) "_record_hash" =
        some (vStr (calcRecordHash env d)) := by
  unfold transform_microservice_data at hout
  by_cases htr : pyTruthy data = true
  · simp only [htr, not_true_eq_false, Bool.false_eq_true, reduceIte] at hout
    cases hrec : extractRecordsV data with
    | none => rw [hrec] at hout; cases hout
    | some records =>
      rw [hrec, hrules] at hout
      obtain ⟨r, hr, hmap⟩ := List.mem_filterMap.mp hout
      cases r with
      | vDict d =>
        simp only [transform_record, Option.map_some', Option.some.injEq] at hmap
        refine ⟨d, by simp [hrec, hr], hmap.symm, ?_, ?_, ?_⟩ <;>
          (unfold transformRecordD; simp [lookupK_setK])
      | vNull => simp [transform_record] at hmap
      | vBool b => simp [transform_record] at hmap
      | vNum q => simp [transform_record] at hmap
      | vStr s => simp [transform_record] at hmap
      | vList l => simp [transform_record] at hmap
  · simp [htr] at hout

/-- The accounts-payable transformation rule set, spelled out for
concrete instantiations. -/
def apRules : TransformRules :=
  { field_mappings := [("id", "payable_id"), ("amount", "payable_amount"),
      ("due_date", "payable_due_date"), ("supplier_id", "supplier_id"),
      ("status", "payable_status")]
    calculated_fields := [("days_until_due", .days_until_due), ("amount_cad", .amount_cad),
      ("risk_score", .risk_score)]
    aggregations := [("total_amount", "sum"), ("avg_amount", "mean"), ("count", "count")] }

/-- Witness for the amended C6 at a concrete one-record payload. -/
theorem transform_adds_system_fields_witness :
    ∃ d, vDict d ∈ (extractRecordsV (vList [vDict [("a", vNum 1)]])).getD [] ∧
      vDict (transformRecordD envW apRules "accounts-payable" [("a", vNum 1)]) =
        vDict (transformRecordD envW apRules "accounts-payable" d) ∧
      lookupK (transformRecordD envW apRules "accounts-payable" d) "_source_service" =
        some (vStr "accounts-payable") ∧
      lookupK (transformRecordD envW apRules "accounts-payable" d) "_transformed_at" =
        some (vStr envW.nowIso) ∧
      lookupK (transformRecordD envW apRules "accounts-payable" d) "_record_hash" =
        some (vStr (calcRecordHash envW d)) :=
  transform_adds_system_fields envW "accounts-payable" "records" apRules
    (vList [vDict [("a", vNum 1)]])
    (vDict (transformRecordD envW apRules "accounts-payable" [("a", vNum 1)]))
    rfl (List.mem_singleton.mpr rfl)

/-! ### C8 — field mapping is lossless for (non-colliding) unmapped fields -/

theorem lookupK_mem (d : Record) (k : String) (v : Value) (h : lookupK d k = some v) :
    (k, v) ∈ d := by
  induction d with
  | nil => cases h
  | cons p rest ih =>
    obtain ⟨k1, v1⟩ := p
    unfold lookupK at h
    by_cases hk : k1 = k
    · rw [if_pos hk] at h
      injection h with h1
      subst hk; subst h1
      exact List.mem_cons_self _ _
    · rw [if_neg hk] at h
      exact List.mem_cons_of_mem _ (ih h)

theorem lookupK_none_keys (d : Record) (k : String) (h : lookupK d k = none) :
    ∀ p ∈ d, p.1 ≠ k := by
  induction d with
  | nil => intro p hp; cases hp
  | cons q rest ih =>
    obtain ⟨k1, v1⟩ := q
    unfold lookupK at h
    by_cases hk : k1 = k
    · rw [if_pos hk] at h; cases h
    · rw [if_neg hk] at h
      intro p hp
      rcases List.mem_cons.mp hp with rfl | hmem
      · exact hk
      · exact ih h p hmem

theorem lookup_mapfold_not_snd (d : Record) (k : String) :
    ∀ (ms : List (String × String)) (acc : Record), k ∉ ms.map Prod.snd →
      lookupK (ms.foldl (fun acc (p : String × String) =>
        setK acc p.2 (match lookupK d p.1 with | some v => v | none => vNull)) acc) k =
      lookupK acc k := by
  intro ms
  induction ms with
  | nil => intro acc _; rfl
  | cons p rest ih =>
    intro acc hk
    simp only [List.map_cons, List.mem_cons] at hk
    push_neg at hk
    simp only [List.foldl_cons]
    rw [ih _ hk.2, lookupK_setK, if_neg (Ne.symm hk.1)]

theorem lookup_mapfold_snd (d : Record) :
    ∀ (ms : List (String × String)) (acc : Record) (o c : String),
      (ms.map Prod.snd).Nodup → (o, c) ∈ ms →
      lookupK (ms.foldl (fun acc (p : String × String) =>
        setK acc p.2 (match lookupK d p.1 with | some v => v | none => vNull)) acc) c =
      some (match lookupK d o with | some v => v | none => vNull) := by
  intro ms
  induction ms with
  | nil => intro acc o c _ hm; cases hm
  | cons p rest ih =>
    intro acc o c hnd hm
    simp only [List.map_cons, List.nodup_cons] at hnd
    simp only [List.foldl_cons]
    rcases List.mem_cons.mp hm with heq | hmem
    · cases heq
      rw [lookup_mapfold_not_snd d c rest _ hnd.1, lookupK_setK, if_pos rfl]
    · exact ih _ o c hnd.2 hmem

theorem lookup_carryfold_no_key (ms : List (String × String)) (k : String) :
    ∀ (l : List (String × Value)) (acc : Record), (∀ p ∈ l, p.1 ≠ k) →
      lookupK (l.foldl (fun acc (p : String × Value) =>
        if (ms.map Prod.fst).contains p.1 then acc else setK acc p.1 p.2) acc) k =
      lookupK acc k := by
  intro l
  induction l with
  | nil => intro acc _; rfl
  | cons p rest ih =>
    intro acc hk
    simp only [List.foldl_cons]
    have hp := hk p (List.mem_cons_self _ _)
    have hrest : ∀ q ∈ rest, q.1 ≠ k := fun q hq => hk q (List.mem_cons_of_mem _ hq)
    split
    · exact ih _ hrest
    · rw [ih _ hrest, lookupK_setK, if_neg hp]

theorem lookup_carryfold_mapped (ms : List (String × String)) (k : String)
    (hk : k ∈ ms.map Prod.fst) :
    ∀ (l : List (String × Value)) (acc : Record),
      lookupK (l.foldl (fun acc (p : String × Value) =>
        if (ms.map Prod.fst).contains p.1 then acc else setK acc p.1 p.2) acc) k =
      lookupK acc k := by
  intro l
  induction l with
  | nil => intro acc; rfl
  | cons p rest ih =>
    intro acc
    simp only [List.foldl_cons]
    split
    · exact ih _
    · rename_i hskip
      have hne : p.1 ≠ k := by
        intro hcontra
        subst hcontra
        exact hskip (by simpa using hk)
      rw [ih _, lookupK_setK, if_neg hne]

theorem lookup_carryfold_key (ms : List (String × String)) (k : String) (v : Value)
    (hk : k ∉ ms.map Prod.fst) :
    ∀ (l : List (String × Value)) (acc : Record), (l.map Prod.fst).Nodup →
      (k, v) ∈ l →
      lookupK (l.foldl (fun acc (p : String × Value) =>
        if (ms.map Prod.fst).contains p.1 then acc else setK acc p.1 p.2) acc) k =
      some v := by
  intro l
  induction l with
  | nil => intro acc _ hm; cases hm
  | cons p rest ih =>
    intro acc hnd hm
    simp only [List.map_cons, List.nodup_cons] at hnd
    simp only [List.foldl_cons]
    rcases List.mem_cons.mp hm with heq | hmem
    · cases heq
      have hnin : ¬ (ms.map Prod.fst).contains k = true := by
        intro hco
        exact hk (by simpa using hco)
      rw [if_neg hnin]
      have hrest : ∀ q ∈ rest, q.1 ≠ k := by
        intro q hq hcontra
        have hmem2 : q.1 ∈ rest.map Prod.fst := List.mem_map_of_mem _ hq
        rw [hcontra] at hmem2
        exact hnd.1 hmem2
      rw [lookup_carryfold_no_key ms k rest _ hrest, lookupK_setK, if_pos rfl]
    · split
      · exact ih _ hnd.2 hmem
      · exact ih _ hnd.2 hmem

theorem lookup_calcfold_not_mem (env : Env) (d : Record) (k : String) :
    ∀ (cs : List (String × CalcField)) (acc : Record), k ∉ cs.map Prod.fst →
      lookupK (cs.foldl (fun acc (p : String × CalcField) =>
        setK acc p.1 (runCalc env p.2 d)) acc) k = lookupK acc k := by
  intro cs
  induction cs with
  | nil => intro acc _; rfl
  | cons p rest ih =>
    intro acc hk
    simp only [List.map_cons, List.mem_cons] at hk
    push_neg at hk
    simp only [List.foldl_cons]
    rw [ih _ hk.2, lookupK_setK, if_neg (Ne.symm hk.1)]

/-- C8 (amended): for every source with a declared mapping table,
every input-record key outside the mapping table is carried through
unchanged *provided* it does not collide with a calculated-field name
or a system-field name (later passes overwrite such collisions), and
every mapped field absent from the input appears as an explicit null
under its canonical name provided that name is not itself re-written
by a later pass (a same-named carried input field, calculated field,
or system field). -/
theorem mapping_preserves_unmapped_fields (env : Env) (service : String)
    (rules : TransformRules) (d : Record)
    (hrules : transformationRulesFor service = some rules)
    (hnd : (d.map Prod.fst).Nodup) :
    (∀ k v, lookupK d k = some v →
      k ∉ rules.field_mappings.map Prod.fst →
      k ∉ rules.calculated_fields.map Prod.fst →
      k ∉ ["_source_service", "_transformed_at", "_record_hash"] →
      lookupK (transformRecordD env rules service d) k = some v) ∧
    (∀ o c, (o, c) ∈ rules.field_mappings → lookupK d o = none →
      (lookupK d c = none ∨ c ∈ rules.field_mappings.map Prod.fst) →
      c ∉ rules.calculated_fields.map Prod.fst →
      c ∉ ["_source_service", "_transformed_at", "_record_hash"] →
      lookupK (transformRecordD env rules service d) c = some vNull) := by
  have hsnd : (rules.field_mappings.map Prod.snd).Nodup := by
    simp only [transformationRulesFor, transformationRules, assocLookup] at hrules
    repeat' split at hrules
    all_goals first
      | exact Option.noConfusion hrules
      | (injection hrules with h1; subst h1; decide)
  constructor
  · intro k v hkv hnm hnc hns
    have hn1 : k ≠ "_source_service" := by simp at hns; exact hns.1
    have hn2 : k ≠ "_transformed_at" := by simp at hns; exact hns.2.1
    have hn3 : k ≠ "_record_hash" := by simp at hns; exact hns.2.2
    unfold transformRecordD
    rw [lookupK_setK, if_neg (Ne.symm hn3), lookupK_setK, if_neg (Ne.symm hn2),
      lookupK_setK, if_neg (Ne.symm hn1),
      lookup_calcfold_not_mem env d k rules.calculated_fields _ hnc,
      lookup_carryfold_key rules.field_mappings k v hnm d _ hnd (lookupK_mem d k v hkv)]
  · intro o c hoc ho hcd hnc hns
    have hn1 : c ≠ "_source_service" := by simp at hns; exact hns.1
    have hn2 : c ≠ "_transformed_at" := by simp at hns; exact hns.2.1
    have hn3 : c ≠ "_record_hash" := by simp at hns; exact hns.2.2
    unfold transformRecordD
    rw [lookupK_setK, if_neg (Ne.symm hn3), lookupK_setK, if_neg (Ne.symm hn2),
      lookupK_setK, if_neg (Ne.symm hn1),
      lookup_calcfold_not_mem env d c rules.calculated_fields _ hnc]
    have hmap := lookup_mapfold_snd d rules.field_mappings [] o c hsnd hoc
    rcases hcd with hnone | hmem
    · rw [lookup_carryfold_no_key rules.field_mappings c d _
        (lookupK_none_keys d c hnone), hmap, ho]
    · rw [lookup_carryfold_mapped rules.field_mappings c hmem d _, hmap, ho]

/-- Counterexample to C8: an input record whose unmapped key collides
with a calculated-field name (`risk_score`) does *not* appear unchanged
in the output — the calculated-field pass overwrites it (42 becomes
the computed score 0). -/
theorem carried_field_overwritten :
    transform_microservice_data envW "accounts-payable" "payables"
      (vList [vDict [("risk_score", vNum 42)]]) =
      [vDict (transformRecordD envW apRules "accounts-payable" [("risk_score", vNum 42)])] ∧
    lookupK (transformRecordD envW apRules "accounts-payable" [("risk_score", vNum 42)])
      "risk_score" = some (vNum 0) ∧
    vNum (0 : ℚ) ≠ vNum 42 := by
  refine ⟨rfl, ?_, by simp⟩
  unfold transformRecordD apRules
  simp [lookupK_setK, runCalc, calculate_payable_risk_score, riskAmountFactor,
    riskDueDateFactor, riskStatusFactor, lookupK, bind, Option.bind, optRatVal]

/-- Witness for the amended C8 at a concrete accounts-payable record:
an unmapped, non-colliding key is carried through unchanged, and a
mapped field absent from the input appears as an explicit null under
its canonical name. -/
theorem mapping_preserves_unmapped_fields_witness :
    lookupK (transformRecordD envW apRules "accounts-payable" [("extra", vStr "x")])
      "extra" = some (vStr "x") ∧
    lookupK (transformRecordD envW apRules "accounts-payable" [("extra", vStr "x")])
      "payable_status" = some vNull :=
  ⟨(mapping_preserves_unmapped_fields envW "accounts-payable" apRules
      [("extra", vStr "x")] rfl (by simp)).1 "extra" (vStr "x") rfl (by simp [apRules])
      (by simp [apRules]) (by simp),
   (mapping_preserves_unmapped_fields envW "accounts-payable" apRules
      [("extra", vStr "x")] rfl (by simp)).2 "status" "payable_status" (by simp [apRules])
      rfl (Or.inl rfl) (by simp [apRules]) (by simp)⟩
